import Mathlib

/-!
Shallow embedding of the 3D gallery presentation core
(src/js/controls.js, src/js/mouseInteraction.js) and proofs about it.

Numeric state is embedded over the rationals; the one irrational constant
that appears in a verified property (the tilt clamp bound Math.PI / 3) is
handled by keeping the rotation-clamp operation polymorphic over a linear
ordered field and instantiating it at the reals.  JavaScript wall-clock
reads (Date.now()) and the transcendental cosmetic factors computed from
them are passed in as parameters.
-/

namespace Gallery

/-- Three-component vector, embedding THREE.Vector3 with rational
coordinates. -/
structure Vec3 where
  x : ℚ
  y : ℚ
  z : ℚ
deriving DecidableEq

/-- In-flight camera transition record: the state captured by the closure of
Controls.animateCameraTo (start position, start look-at, destination
position, destination look-at, start time, duration). -/
structure CameraTransition where
  startPosition : Vec3
  startLookAt : Vec3
  targetPosition : Vec3
  targetLookAt : Vec3
  startTime : ℚ
  duration : ℚ
deriving DecidableEq

/-- Camera rig state owned by Controls: camera position, orbit-controls
target (the look-at point), the isAnimatingCamera flag, and the in-flight
transition record (none when no transition is running). -/
structure CameraState where
  position : Vec3
  lookAt : Vec3
  isAnimatingCamera : Bool
  transition : Option CameraTransition
deriving DecidableEq

/-- Embedding of Controls.animateCameraTo(targetPosition, targetLookAt,
duration) (src/js/controls.js lines 165-193).  If isAnimatingCamera is set
the call returns immediately without touching anything; otherwise it sets
the flag and captures the transition record.  The source reads Date.now()
for the start time; it is passed in as now.  The source default duration is
1500; call sites pass it explicitly here. -/
def Controls.animateCameraTo (s : CameraState) (targetPosition targetLookAt : Vec3)
    (now : ℚ) (duration : ℚ) : CameraState :=
  if s.isAnimatingCamera then s
  else
    { s with
      isAnimatingCamera := true
      transition := some (
        { startPosition := s.position
          startLookAt := s.lookAt
          targetPosition := targetPosition
          targetLookAt := targetLookAt
          startTime := now
          duration := duration }) }

/-- Embedding of Controls.updateCameraForModel(modelIndex)
(src/js/controls.js lines 156-163): requests a transition that keeps the
current camera position, looks at the origin, and lasts 800 ms. -/
def Controls.updateCameraForModel (s : CameraState) (now : ℚ) : CameraState :=
  Controls.animateCameraTo s s.position ⟨0, 0, 0⟩ now 800

/-- Euler rotation triple of a scene-graph object (model.rotation). -/
structure EulerRot (α : Type) where
  x : α
  y : α
  z : α

/-- Embedding of MouseInteraction.rotateActiveModel(deltaX, deltaY)
(src/js/mouseInteraction.js lines 223-239) acting on the active model
object rotation.  rotationSpeed is the fixed sensitivity (0.01 in the
source) and maxTilt the clamp bound (Math.PI / 3 in the source).
Horizontal mouse movement turns the yaw axis y with no clamp; vertical
movement turns the tilt axis x, which is then clamped to
[-maxTilt, maxTilt]. -/
def MouseInteraction.rotateActiveModel {α : Type} [LinearOrderedField α]
    (rotationSpeed maxTilt : α) (r : EulerRot α) (deltaX deltaY : α) : EulerRot α :=
  let ry := r.y + deltaX * rotationSpeed
  let rx := r.x + deltaY * rotationSpeed
  { x := max (-maxTilt) (min maxTilt rx), y := ry, z := r.z }

/-- A drag sequence of screen-space deltas folded through
MouseInteraction.rotateActiveModel. -/
def MouseInteraction.rotateSeq {α : Type} [LinearOrderedField α]
    (rotationSpeed maxTilt : α) (r : EulerRot α) (ds : List (α × α)) : EulerRot α :=
  ds.foldl (fun acc d => MouseInteraction.rotateActiveModel rotationSpeed maxTilt acc d.1 d.2) r

/-- Scene-graph object attached for a loaded model: the parts of the
THREE.Object3D state the gallery code reads and writes (Euler rotation,
horizontal position, visibility).  The cosmetic vertical bob and the
material list are presentation details not modelled here. -/
structure ModelObj where
  rotX : ℚ
  rotY : ℚ
  rotZ : ℚ
  posX : ℚ
  visible : Bool
deriving DecidableEq

/-- Per-model manual-rotation record created by ModelLoader.loadModel
(src/js/controls.js lines 1976-1982): a base orientation triple randomised
at load time plus rotationX/rotationY fields that the source declares but
never updates. -/
structure PerModelManualRot where
  rotationX : ℚ
  rotationY : ℚ
  baseRotationX : ℚ
  baseRotationY : ℚ
  baseRotationZ : ℚ
deriving DecidableEq

/-- Per-model auto-rotation record (src/js/controls.js lines 1984-1990):
currentRotationY accumulates the idle spin angle. -/
structure PerModelAutoRot where
  currentRotationX : ℚ
  currentRotationY : ℚ
  baseRotationX : ℚ
  baseRotationY : ℚ
  baseRotationZ : ℚ
deriving DecidableEq

/-- One entry of ModelLoader.modelStates, keyed by item id.  modelObject is
none until the GLB load completes, and stays none forever if the load
fails.  The animation mixer and the per-model scale vector are opaque to
every verified property and not modelled. -/
structure ModelState where
  modelObject : Option ModelObj
  targetOpacity : ℚ
  currentOpacity : ℚ
  visible : Bool
  targetX : ℚ
  currentX : ℚ
  manualRotation : PerModelManualRot
  autoRotation : PerModelAutoRot
deriving DecidableEq

/-- Global manual-rotation state ModelLoader.manualRotation
(src/js/controls.js lines 1785-1799). -/
structure ManualRotationState where
  enabled : Bool
  sensitivity : ℚ
  dampening : ℚ
  maxSpeed : ℚ
  isDragging : Bool
  lastMouseX : ℚ
  lastMouseY : ℚ
  velocityX : ℚ
  velocityY : ℚ
  targetRotationX : ℚ
  targetRotationY : ℚ
  currentRotationX : ℚ
  currentRotationY : ℚ
  rotateActiveOnly : Bool
deriving DecidableEq

/-- Global auto-rotation configuration ModelLoader.autoRotation
(src/js/controls.js lines 1801-1806). -/
structure AutoRotationState where
  enabled : Bool
  speed : ℚ
  direction : ℚ
  rotateActiveOnly : Bool
deriving DecidableEq

/-- Stored spotlight configuration ModelLoader.spotlightConfig
(src/js/controls.js lines 1774-1783).  The targetOffset vector is constant
zero in the source and omitted. -/
structure SpotlightConfig where
  color : ℚ
  intensity : ℚ
  distance : ℚ
  angle : ℚ
  penumbra : ℚ
  decay : ℚ
  height : ℚ
deriving DecidableEq

/-- The THREE.SpotLight parameters the gallery code reads and writes.  The
color field stands for the light color object (written from an HSL hue at
creation, overwritten from a hex value by updateSpotlightConfig); its
position and aim target are presentation geometry not modelled here. -/
structure SpotlightLight where
  color : ℚ
  intensity : ℚ
  distance : ℚ
  angle : ℚ
  penumbra : ℚ
  decay : ℚ
deriving DecidableEq

/-- One entry of ModelLoader.spotlights (src/js/controls.js lines
2147-2153). -/
structure SpotlightData where
  light : SpotlightLight
  originalIntensity : ℚ
  currentIntensity : ℚ
  targetIntensity : ℚ
deriving DecidableEq

/-- The ModelLoader state (second, direct-manipulation variant,
src/js/controls.js lines 1746-1812).  The tables are keyed by item id;
none marks an absent key. -/
structure ModelLoaderState where
  modelStates : Nat → Option ModelState
  activeModelId : Option Nat
  modelXOffset : ℚ
  spotlights : Nat → Option SpotlightData
  spotlightConfig : SpotlightConfig
  manualRotation : ManualRotationState
  autoRotation : AutoRotationState

/-- ModelLoader constructor state (src/js/controls.js lines 1746-1812).
The spotlight cone angle is Math.PI / 6 in the source; since this embedding
is over the rationals the constructor takes that one value as a
parameter. -/
def mkModelLoader (coneAngle : ℚ) : ModelLoaderState :=
  { modelStates := fun _ => none
    activeModelId := none
    modelXOffset := 6
    spotlights := fun _ => none
    spotlightConfig :=
      { color := 0xffffff, intensity := 2, distance := 30, angle := coneAngle
        penumbra := 3/10, decay := 3/2, height := 8 }
    manualRotation :=
      { enabled := true, sensitivity := 1/20, dampening := 19/20
        maxSpeed := 1/20, isDragging := false, lastMouseX := 0, lastMouseY := 0
        velocityX := 0, velocityY := 0, targetRotationX := 0, targetRotationY := 0
        currentRotationX := 0, currentRotationY := 0, rotateActiveOnly := true }
    autoRotation :=
      { enabled := true, speed := 1/2, direction := -1, rotateActiveOnly := true } }

/-- THREE.MathUtils.lerp(x, y, t) = x + (y - x) * t. -/
def lerp (x y t : ℚ) : ℚ := x + (y - x) * t

/-- Pointwise update of one key of a model-state table. -/
def updateAt (ms : Nat → Option ModelState) (k : Nat) (f : ModelState → ModelState) :
    Nat → Option ModelState :=
  fun j => if j = k then (ms j).map f else ms j

/-- Embedding of ModelLoader.onMouseDown (src/js/controls.js lines
1843-1854): a left-button press starts a drag, records the pointer position
and zeroes the velocity pair. -/
def ModelLoader.onMouseDown (m : ModelLoaderState) (button : Nat)
    (clientX clientY : ℚ) : ModelLoaderState :=
  if !m.manualRotation.enabled || button != 0 then m
  else
    { m with manualRotation :=
      { m.manualRotation with
        isDragging := true, lastMouseX := clientX, lastMouseY := clientY
        velocityX := 0, velocityY := 0 } }

/-- Embedding of ModelLoader.onMouseMove (src/js/controls.js lines
1856-1873): the velocity pair is overwritten with the per-sample screen
delta scaled by sensitivity and clamped to [-maxSpeed, maxSpeed]. -/
def ModelLoader.onMouseMove (m : ModelLoaderState) (clientX clientY : ℚ) : ModelLoaderState :=
  if !m.manualRotation.enabled || !m.manualRotation.isDragging then m
  else
    let mr := m.manualRotation
    let deltaX := clientX - mr.lastMouseX
    let deltaY := clientY - mr.lastMouseY
    let vX := max (-mr.maxSpeed) (min mr.maxSpeed (deltaX * mr.sensitivity))
    let vY := max (-mr.maxSpeed) (min mr.maxSpeed (deltaY * mr.sensitivity))
    { m with manualRotation :=
      { mr with
        velocityX := vX, velocityY := vY
        lastMouseX := clientX, lastMouseY := clientY } }

/-- Embedding of ModelLoader.onMouseUp (src/js/controls.js lines
1875-1881): ends the drag, leaving the residual velocity in place. -/
def ModelLoader.onMouseUp (m : ModelLoaderState) : ModelLoaderState :=
  if !m.manualRotation.enabled then m
  else { m with manualRotation := { m.manualRotation with isDragging := false } }

/-- Embedding of ModelLoader.applyManualRotationToModel (src/js/controls.js
lines 2325-2335): writes the object rotation from the per-model manual base
triple plus the global current manual rotation; a state with no object is
left untouched. -/
def ModelLoader.applyManualRotationToModel (g : ManualRotationState)
    (st : ModelState) : ModelState :=
  match st.modelObject with
  | none => st
  | some obj =>
    { st with modelObject := some (
      { obj with
        rotX := st.manualRotation.baseRotationX + g.currentRotationX
        rotY := st.manualRotation.baseRotationY + g.currentRotationY
        rotZ := st.manualRotation.baseRotationZ }) }

/-- The pure bookkeeping part of ModelLoader.updateManualRotation(delta)
(src/js/controls.js lines 2289-2308): dampen the velocities, accumulate
them into the target rotation, ease the current rotation toward the target
with factor delta * 8. -/
def ModelLoader.manualRotationAdvance (mr : ManualRotationState) (delta : ℚ) :
    ManualRotationState :=
  let vX := mr.velocityX * mr.dampening
  let vY := mr.velocityY * mr.dampening
  let tY := mr.targetRotationY + vX
  let tX := mr.targetRotationX + vY
  let cX := lerp mr.currentRotationX tX (delta * 8)
  let cY := lerp mr.currentRotationY tY (delta * 8)
  { mr with
    velocityX := vX, velocityY := vY
    targetRotationX := tX, targetRotationY := tY
    currentRotationX := cX, currentRotationY := cY }

/-- Embedding of ModelLoader.updateManualRotation(delta) (src/js/controls.js
lines 2289-2324): advance the global manual-rotation bookkeeping, then
write the rotation of the active model (rotateActiveOnly is true in the
constructor; the all-visible-models branch is also embedded). -/
def ModelLoader.updateManualRotation (m : ModelLoaderState) (delta : ℚ) : ModelLoaderState :=
  let mr2 := ModelLoader.manualRotationAdvance m.manualRotation delta
  let m2 := { m with manualRotation := mr2 }
  if mr2.rotateActiveOnly then
    match m2.activeModelId with
    | some aid =>
        { m2 with modelStates :=
            (updateAt m2.modelStates aid (ModelLoader.applyManualRotationToModel mr2)) }
    | none => m2
  else
    { m2 with modelStates := (fun j => (m2.modelStates j).map
        (fun st => if st.visible then ModelLoader.applyManualRotationToModel mr2 st else st)) }

/-- Embedding of ModelLoader.applyAutoRotationToModel (src/js/controls.js
lines 2355-2368): advance the per-model idle angle currentRotationY by
speed * direction * delta and write the object rotation from the
auto-rotation base triple; a state with no object is left untouched. -/
def ModelLoader.applyAutoRotationToModel (cfg : AutoRotationState) (delta : ℚ)
    (st : ModelState) : ModelState :=
  match st.modelObject with
  | none => st
  | some obj =>
    let cY := st.autoRotation.currentRotationY + cfg.speed * cfg.direction * delta
    { st with
      autoRotation := { st.autoRotation with currentRotationY := cY }
      modelObject := some (
        { obj with
          rotX := st.autoRotation.baseRotationX
          rotY := st.autoRotation.baseRotationY + cY
          rotZ := st.autoRotation.baseRotationZ }) }

/-- Embedding of ModelLoader.updateAutoRotation(delta) (src/js/controls.js
lines 2338-2353). -/
def ModelLoader.updateAutoRotation (m : ModelLoaderState) (delta : ℚ) : ModelLoaderState :=
  if m.autoRotation.rotateActiveOnly then
    match m.activeModelId with
    | some aid =>
        { m with modelStates :=
            (updateAt m.modelStates aid
              (ModelLoader.applyAutoRotationToModel m.autoRotation delta)) }
    | none => m
  else
    { m with modelStates := (fun j => (m.modelStates j).map
        (fun st => if st.visible then
            ModelLoader.applyAutoRotationToModel m.autoRotation delta st
          else st)) }

/-- Per-model block of ModelLoader.update (src/js/controls.js lines
2477-2519), for states whose object is present: opacity and horizontal
position ease toward their targets with factors delta * 3 and delta * 4,
the object x position is written back, a fading model whose lerped opacity
fell under 0.01 with target 0 is snapped invisible with opacity exactly 0,
a model with positive target opacity is marked visible, and the stored
visibility is pushed onto the object (updateModelAppearance).  The cosmetic
time-based vertical bob and the animation mixers are presentation details
outside this state model. -/
def ModelLoader.modelTransitionStep (delta : ℚ) (st : ModelState) : ModelState :=
  match st.modelObject with
  | none => st
  | some obj =>
    let cOp := lerp st.currentOpacity st.targetOpacity (delta * 3)
    let cX := lerp st.currentX st.targetX (delta * 4)
    let stepped :=
      if cOp < 1/100 ∧ st.targetOpacity = 0 then
        { st with currentOpacity := 0, visible := false, currentX := cX }
      else if 0 < st.targetOpacity then
        { st with currentOpacity := cOp, visible := true, currentX := cX }
      else
        { st with currentOpacity := cOp, currentX := cX }
    { stepped with modelObject := some ({ obj with posX := cX, visible := stepped.visible }) }

/-- Embedding of ModelLoader.animateSpotlights(delta) (src/js/controls.js
lines 2195-2211): each stored intensity eases toward its target with factor
delta * 3 and is written to the light; a light with positive target is
additionally modulated by a sinusoidal pulse of wall-clock time, passed in
as the factor pulse (Math.sin(Date.now() * 0.002) * 0.1 + 1 in the
source). -/
def ModelLoader.animateSpotlights (m : ModelLoaderState) (delta pulse : ℚ) : ModelLoaderState :=
  { m with spotlights := (fun j => (m.spotlights j).map (fun sd =>
      let c := lerp sd.currentIntensity sd.targetIntensity (delta * 3)
      let written := if 0 < sd.targetIntensity then c * pulse else c
      { sd with
        currentIntensity := c
        light := { sd.light with intensity := written } })) }

/-- Embedding of ModelLoader.update(delta) (src/js/controls.js lines
2465-2529): manual rotation when enabled, auto rotation when enabled and no
drag is in progress, the per-model opacity and position transition, and the
spotlight easing. -/
def ModelLoader.update (m : ModelLoaderState) (delta pulse : ℚ) : ModelLoaderState :=
  let m1 := if m.manualRotation.enabled then ModelLoader.updateManualRotation m delta else m
  let m2 :=
    if m1.autoRotation.enabled ∧ ¬ m1.manualRotation.isDragging then
      ModelLoader.updateAutoRotation m1 delta
    else m1
  let m3 := { m2 with modelStates := (fun j =>
      (m2.modelStates j).map (ModelLoader.modelTransitionStep delta)) }
  ModelLoader.animateSpotlights m3 delta pulse

/-- Embedding of ModelLoader.activateSpotlight(modelId) (src/js/controls.js
lines 2185-2193): every light's target intensity drops to 0, then the
addressed light's target returns to its original intensity. -/
def ModelLoader.activateSpotlight (m : ModelLoaderState) (modelId : Nat) : ModelLoaderState :=
  let sp1 := fun j => (m.spotlights j).map (fun sd => { sd with targetIntensity := (0:ℚ) })
  let sp2 := fun j =>
    if j = modelId then
      (sp1 j).map (fun sd => { sd with targetIntensity := sd.originalIntensity })
    else sp1 j
  { m with spotlights := sp2 }

/-- The fade-out write showModel applies to the outgoing active state
(src/js/controls.js lines 2232-2235). -/
def ModelLoader.fadeOutState (st : ModelState) : ModelState :=
  { st with targetOpacity := 0, visible := false }

/-- The activation write showModel applies to the incoming state
(src/js/controls.js lines 2239-2246); the object, when loaded, is made
visible. -/
def ModelLoader.activateState (st : ModelState) : ModelState :=
  { st with
    targetOpacity := 1, visible := true
    modelObject := st.modelObject.map (fun obj => { obj with visible := true }) }

/-- Embedding of ModelLoader.showModel(modelId, index) (src/js/controls.js
lines 2231-2249); the index argument is unused in the source body.  The
current active model (if its state exists) gets target opacity 0 and
visible false; the active id becomes modelId; the addressed state (if it
exists) gets target opacity 1 and visible true and its object (if loaded)
is made visible; finally the spotlights are retargeted. -/
def ModelLoader.showModel (m : ModelLoaderState) (modelId : Nat) : ModelLoaderState :=
  let m1 :=
    match m.activeModelId with
    | none => m
    | some aid =>
        { m with modelStates := (updateAt m.modelStates aid ModelLoader.fadeOutState) }
  let m2 := { m1 with activeModelId := some modelId }
  let m3 := { m2 with modelStates := (updateAt m2.modelStates modelId ModelLoader.activateState) }
  ModelLoader.activateSpotlight m3 modelId

/-- Partial configuration object passed to updateSpotlightConfig; none
means the key is absent from the JavaScript object. -/
structure SpotlightConfigPatch where
  color : Option ℚ
  intensity : Option ℚ
  distance : Option ℚ
  angle : Option ℚ
  penumbra : Option ℚ
  decay : Option ℚ
  height : Option ℚ
deriving DecidableEq

/-- JavaScript truthiness merge (config.field || light.field): an absent key
or a zero value leaves the current value in place. -/
def jsOr (v : Option ℚ) (cur : ℚ) : ℚ :=
  match v with
  | none => cur
  | some x => if x = 0 then cur else x

/-- Embedding of ModelLoader.updateSpotlightConfig(config)
(src/js/controls.js lines 2604-2619; the variant at lines 1726-1742 is
textually identical): the stored config is replaced by the object spread,
where an absent key keeps the old value and a present key overwrites even
with 0, while every existing light merges each numeric field with the
truthiness fallback and takes the color only when it is truthy. -/
def ModelLoader.updateSpotlightConfig (m : ModelLoaderState)
    (cfg : SpotlightConfigPatch) : ModelLoaderState :=
  let sc := m.spotlightConfig
  let sc2 : SpotlightConfig :=
    { color := cfg.color.getD sc.color
      intensity := cfg.intensity.getD sc.intensity
      distance := cfg.distance.getD sc.distance
      angle := cfg.angle.getD sc.angle
      penumbra := cfg.penumbra.getD sc.penumbra
      decay := cfg.decay.getD sc.decay
      height := cfg.height.getD sc.height }
  { m with
    spotlightConfig := sc2
    spotlights := (fun j => (m.spotlights j).map (fun sd =>
      { sd with light :=
        { intensity := jsOr cfg.intensity sd.light.intensity
          distance := jsOr cfg.distance sd.light.distance
          angle := jsOr cfg.angle sd.light.angle
          penumbra := jsOr cfg.penumbra sd.light.penumbra
          decay := jsOr cfg.decay sd.light.decay
          color :=
            match cfg.color with
            | some c => if c = 0 then sd.light.color else c
            | none => sd.light.color } })) }

/-- One configured gallery item: only the stable identifier matters to the
verified state machine (titles, descriptions, asset URLs and the scale
vector are opaque to it).  Identifiers are opaque non-empty strings in the
source and are modelled as naturals. -/
structure GalleryItem where
  id : Nat
deriving DecidableEq

/-- Environment values read during loading: the viewport breakpoint
(window.innerWidth <= 768) and the per-model Math.random() draws for the
base orientation triples, parameterised for determinism per the spec's
design note on seeded randomness. -/
structure LoadEnv where
  isMobile : Bool
  manualBase : Nat → ℚ × ℚ × ℚ
  autoBase : Nat → ℚ × ℚ × ℚ

/-- The ModelState recorded synchronously by ModelLoader.loadModel
(src/js/controls.js lines 1966-1991) before the asset resolves: no scene
object yet, opacity and visibility 1 only for index 0, randomised base
orientation triples. -/
def ModelLoader.initState (env : LoadEnv) (index : Nat) : ModelState :=
  let mb := env.manualBase index
  let ab := env.autoBase index
  { modelObject := none
    targetOpacity := if index = 0 then 1 else 0
    currentOpacity := if index = 0 then 1 else 0
    visible := index == 0
    targetX := 0
    currentX := 0
    manualRotation :=
      { rotationX := 0, rotationY := 0
        baseRotationX := mb.1, baseRotationY := mb.2.1, baseRotationZ := mb.2.2 }
    autoRotation :=
      { currentRotationX := 0, currentRotationY := 0
        baseRotationX := ab.1, baseRotationY := ab.2.1, baseRotationZ := ab.2.2 } }

/-- The lateral slot computed by ModelLoader.positionModel
(src/js/controls.js lines 2213-2229): zero on mobile, alternating
plus/minus modelXOffset by index parity on desktop. -/
def ModelLoader.positionX (m : ModelLoaderState) (isMobile : Bool) (index : Nat) : ℚ :=
  if isMobile then 0
  else if index % 2 = 0 then m.modelXOffset else -m.modelXOffset

/-- The deterministic spotlight hue (index * 0.15) mod 1 from
ModelLoader.createSpotlightForModel (src/js/controls.js line 2143); the
value stands for the HSL color built from it. -/
def ModelLoader.hueColor (index : Nat) : ℚ := Int.fract ((index : ℚ) * (3/20))

/-- Embedding of ModelLoader.createSpotlightForModel (src/js/controls.js
lines 2114-2164): a light with the configured falloff parameters and the
deterministic per-index hue; intensity starts at the configured base for
index 0 and at 0 otherwise. -/
def ModelLoader.createSpotlightForModel (m : ModelLoaderState)
    (modelId index : Nat) : ModelLoaderState :=
  let cfg := m.spotlightConfig
  let sd : SpotlightData :=
    { light :=
        { color := ModelLoader.hueColor index
          intensity := if index = 0 then cfg.intensity else 0
          distance := cfg.distance, angle := cfg.angle
          penumbra := cfg.penumbra, decay := cfg.decay }
      originalIntensity := cfg.intensity
      currentIntensity := if index = 0 then cfg.intensity else 0
      targetIntensity := if index = 0 then cfg.intensity else 0 }
  { m with spotlights := (fun j => if j = modelId then some sd else m.spotlights j) }

/-- One successful loadModel + processModel pass for the item at position
index (src/js/controls.js lines 1965-2064): record the pre-load state,
attach the loaded object with the randomised base orientation at its
lateral slot (hidden unless index 0), create its spotlight, and for index 0
set the active model id. -/
def ModelLoader.loadStep (env : LoadEnv) (m : ModelLoaderState)
    (item : GalleryItem) (index : Nat) : ModelLoaderState :=
  let st0 := ModelLoader.initState env index
  let x := ModelLoader.positionX m env.isMobile index
  let mb := env.manualBase index
  let obj : ModelObj :=
    { rotX := mb.1, rotY := mb.2.1, rotZ := mb.2.2, posX := x, visible := index == 0 }
  let st := { st0 with targetX := x, currentX := x, modelObject := some obj }
  let m1 := { m with modelStates := (fun j => if j = item.id then some st else m.modelStates j) }
  let m2 := ModelLoader.createSpotlightForModel m1 item.id index
  if index = 0 then { m2 with activeModelId := some item.id } else m2

/-- Embedding of Gallery3D.loadModels (src/js/controls.js lines 835-867) in
the all-loads-succeed case: load every item in order, then activate the
first item. -/
def Gallery3D.loadModels (env : LoadEnv) (items : List GalleryItem)
    (m : ModelLoaderState) : ModelLoaderState :=
  let m1 := items.enum.foldl (fun acc p => ModelLoader.loadStep env acc p.2 p.1) m
  match items with
  | [] => m1
  | it :: _ => ModelLoader.showModel m1 it.id

/-- The Gallery3D orchestrator state (src/js/controls.js lines 619-1154):
the configured item list, the current index, the model loader and the
camera rig.  The scroll handler and UI manager are external collaborators
represented by the emitted events. -/
structure Gallery3DState where
  galleryData : List GalleryItem
  currentIndex : Int
  modelLoader : ModelLoaderState
  controls : CameraState

/-- UI side effects emitted by navigation, consumed by external
collaborators (DOM scroll, progress dots, info panel, interaction hints,
mouse-interaction reset). -/
inductive UIEvent where
  | scrolledToElement (id : Nat)
  | progressDotsUpdated (index : Int)
  | modelInfoUpdated (id : Nat)
  | interactionAreaUpdated (index : Int)
  | mouseInteractionReset
deriving DecidableEq

/-- Embedding of Gallery3D.switchToItem(newIndex) (src/js/controls.js lines
991-1016): when the index differs from the current one and is in range, set
the current index, show the model, update the UI, request the camera
transition and reset the mouse interaction; otherwise do nothing.  The
returned list is the UI notifications issued by the call. -/
def Gallery3D.switchToItem (g : Gallery3DState) (newIndex : Int) (now : ℚ) :
    Gallery3DState × List UIEvent :=
  if newIndex ≠ g.currentIndex ∧ 0 ≤ newIndex ∧ newIndex < (g.galleryData.length : Int) then
    match g.galleryData.get? newIndex.toNat with
    | some item =>
      ({ g with
          currentIndex := newIndex
          modelLoader := ModelLoader.showModel g.modelLoader item.id
          controls := Controls.updateCameraForModel g.controls now },
       [UIEvent.progressDotsUpdated newIndex, UIEvent.modelInfoUpdated item.id,
        UIEvent.interactionAreaUpdated newIndex, UIEvent.mouseInteractionReset])
    | none => (g, [])
  else (g, [])

/-- Embedding of Gallery3D.navigateToItem(index) (src/js/controls.js lines
974-989): guard the index, scroll the item's DOM section into view, then
switch immediately.  The DOM element exists for every configured item since
createGalleryHTML creates one per item. -/
def Gallery3D.navigateToItem (g : Gallery3DState) (index : Int) (now : ℚ) :
    Gallery3DState × List UIEvent :=
  if 0 ≤ index ∧ index < (g.galleryData.length : Int) ∧ index ≠ g.currentIndex then
    match g.galleryData.get? index.toNat with
    | some item =>
      let r := Gallery3D.switchToItem g index now
      (r.1, UIEvent.scrolledToElement item.id :: r.2)
    | none => (g, [])
  else (g, [])

/-- A sequence of activation requests fed through switchToItem, with the UI
events discarded. -/
def Gallery3D.activateSeq (g : Gallery3DState) (seq : List Int) (now : ℚ) : Gallery3DState :=
  seq.foldl (fun acc i => (Gallery3D.switchToItem acc i now).1) g

/-- The gallery state right after Gallery3D.init in the all-loads-succeed
case: configuration loaded, models loaded in order, first item active,
current index 0.  The camera start state and the spotlight cone angle are
parameters (see mkModelLoader). -/
def Gallery3D.initialState (env : LoadEnv) (items : List GalleryItem)
    (coneAngle : ℚ) (cam : CameraState) : Gallery3DState :=
  { galleryData := items
    currentIndex := 0
    modelLoader := Gallery3D.loadModels env items (mkModelLoader coneAngle)
    controls := cam }

/-- A move-then-frame drag loop: each pointer-move sample is followed by one
animation-frame update, the interleaving realising the source's
mousemove-listener-plus-requestAnimationFrame scheduling. -/
def ModelLoader.dragFrames (m : ModelLoaderState) (ps : List (ℚ × ℚ))
    (delta pulse : ℚ) : ModelLoaderState :=
  ps.foldl (fun acc p => ModelLoader.update (ModelLoader.onMouseMove acc p.1 p.2) delta pulse) m

/-- Every pointer-move sample in the list exceeds (or meets) the per-sample
velocity clamp in the positive direction: each horizontal step from the
previous sample, scaled by the sensitivity, is at least maxSpeed. -/
def exceedsClampB (sensitivity maxSpeed : ℚ) : ℚ → List (ℚ × ℚ) → Bool
  | _, [] => true
  | lastX, p :: ps =>
    decide (maxSpeed ≤ (p.1 - lastX) * sensitivity) && exceedsClampB sensitivity maxSpeed p.1 ps

/-- Distance of the stored opacity from its target. -/
def opacityGap (st : ModelState) : ℚ := |st.currentOpacity - st.targetOpacity|

/-- At most one recorded model state carries target opacity 1. -/
def AtMostOneActive (ms : Nat → Option ModelState) : Prop :=
  ∀ i j si sj, ms i = some si → ms j = some sj →
    si.targetOpacity = 1 → sj.targetOpacity = 1 → i = j

/-- Strengthened single-active invariant: any recorded state with target
opacity 1 is the one stored under the active model id. -/
def ActiveInv (m : ModelLoaderState) : Prop :=
  ∀ k st, m.modelStates k = some st → st.targetOpacity = 1 → m.activeModelId = some k

/-- Both stored opacities of one model state lie in [0, 1]. -/
def OpacityInRangeState (st : ModelState) : Prop :=
  0 ≤ st.currentOpacity ∧ st.currentOpacity ≤ 1 ∧
  0 ≤ st.targetOpacity ∧ st.targetOpacity ≤ 1

/-- Both stored opacities of every recorded state lie in [0, 1]. -/
def OpacityInRange (ms : Nat → Option ModelState) : Prop :=
  ∀ k st, ms k = some st → OpacityInRangeState st

/-- Concrete camera fixture with a transition in flight. -/
def inFlightCam : CameraState :=
  { position := ⟨0, 1, 7⟩
    lookAt := ⟨0, 0, 0⟩
    isAnimatingCamera := true
    transition := some
      { startPosition := ⟨0, 1, 7⟩, startLookAt := ⟨0, 0, 0⟩
        targetPosition := ⟨2, 2, 2⟩, targetLookAt := ⟨0, 0, 0⟩
        startTime := 100, duration := 1500 } }

/-- Concrete idle camera fixture. -/
def idleCam : CameraState :=
  { position := ⟨0, 1, 7⟩, lookAt := ⟨0, 0, 0⟩
    isAnimatingCamera := false, transition := none }

/-- Deterministic load environment (desktop, zero random draws). -/
def zeroEnv : LoadEnv :=
  { isMobile := false, manualBase := fun _ => (0, 0, 0), autoBase := fun _ => (0, 0, 0) }

/-- Zeroed per-model manual-rotation record. -/
def pmZero : PerModelManualRot :=
  { rotationX := 0, rotationY := 0
    baseRotationX := 0, baseRotationY := 0, baseRotationZ := 0 }

/-- Zeroed per-model auto-rotation record. -/
def paZero : PerModelAutoRot :=
  { currentRotationX := 0, currentRotationY := 0
    baseRotationX := 0, baseRotationY := 0, baseRotationZ := 0 }

/-- A visible scene object at the origin. -/
def objZero : ModelObj := { rotX := 0, rotY := 0, rotZ := 0, posX := 0, visible := true }

/-- A fully shown, loaded model state. -/
def loadedActiveState : ModelState :=
  { modelObject := some objZero
    targetOpacity := 1, currentOpacity := 1, visible := true
    targetX := 0, currentX := 0
    manualRotation := pmZero, autoRotation := paZero }

/-- A model state whose asset load failed: no scene object was ever
attached. -/
def failedState : ModelState :=
  { modelObject := none
    targetOpacity := 0, currentOpacity := 0, visible := false
    targetX := 0, currentX := 0
    manualRotation := pmZero, autoRotation := paZero }

/-- A loaded model state at the start of a fade-in (opacity 0, target 1). -/
def fadeInState : ModelState := { loadedActiveState with currentOpacity := 0 }

/-- The constructor loader with cone angle instantiated at 1. -/
def baseLoader : ModelLoaderState := mkModelLoader 1

/-- Loader with item 0 loaded and active and item 1 permanently failed. -/
def failLoader : ModelLoaderState :=
  { baseLoader with
    modelStates := (fun j =>
      if j = 0 then some loadedActiveState
      else if j = 1 then some failedState
      else none)
    activeModelId := some 0 }

/-- Two-item gallery in which item 1 failed to load. -/
def gFail : Gallery3DState :=
  { galleryData := [⟨0⟩, ⟨1⟩], currentIndex := 0
    modelLoader := failLoader, controls := idleCam }

/-- Loader in the state right after a drag ended: the pointer was released
this instant, the residual velocity still sits at the clamp maximum, and
auto rotation is enabled. -/
def dragEndLoader : ModelLoaderState :=
  { baseLoader with
    modelStates := (fun j => if j = 0 then some loadedActiveState else none)
    activeModelId := some 0
    manualRotation := { baseLoader.manualRotation with velocityX := 1/20 } }

/-- Loader with one model mid fade-in and no active id. -/
def fadeInLoader : ModelLoaderState :=
  { baseLoader with
    modelStates := (fun j => if j = 0 then some fadeInState else none) }

/-- Loader at the first instant of a drag (left button pressed at the
origin). -/
def dragStartLoader : ModelLoaderState := ModelLoader.onMouseDown baseLoader 0 0 0

/-- Ten pointer-move samples, each 100 pixels right of the previous one:
every sample exceeds the per-sample velocity clamp. -/
def tenBigMoves : List (ℚ × ℚ) :=
  [(100, 0), (200, 0), (300, 0), (400, 0), (500, 0),
   (600, 0), (700, 0), (800, 0), (900, 0), (1000, 0)]

/-- A concrete spotlight entry. -/
def sdOne : SpotlightData :=
  { light := { color := 1, intensity := 2, distance := 30, angle := 1, penumbra := 3/10, decay := 3/2 }
    originalIntensity := 2, currentIntensity := 2, targetIntensity := 2 }

/-- Loader with a single existing spotlight. -/
def oneSpotLoader : ModelLoaderState :=
  { baseLoader with spotlights := (fun j => if j = 0 then some sdOne else none) }

/-- A configuration patch setting every field to 0. -/
def zeroPatch : SpotlightConfigPatch :=
  { color := some 0, intensity := some 0, distance := some 0, angle := some 0
    penumbra := some 0, decay := some 0, height := some 0 }

/-- Two-item gallery produced by the real initialisation pipeline. -/
def twoItemGallery : Gallery3DState :=
  Gallery3D.initialState zeroEnv [⟨0⟩, ⟨1⟩] 1 idleCam

/-- Every pointer-move sample in the list exceeds (or meets) the per-sample
velocity clamp in the positive vertical direction: each vertical step from
the previous sample, scaled by the sensitivity, is at least maxSpeed. -/
def exceedsClampVertB (sensitivity maxSpeed : ℚ) : ℚ → List (ℚ × ℚ) → Bool
  | _, [] => true
  | lastY, p :: ps =>
    decide (maxSpeed ≤ (p.2 - lastY) * sensitivity)
      && exceedsClampVertB sensitivity maxSpeed p.2 ps

/-- The vertical coordinate of the last sample of a drag, or the previous
pointer position when the list is empty. -/
def lastYOf (d : ℚ) (ps : List (ℚ × ℚ)) : ℚ := ps.foldl (fun _ p => p.2) d

/-- Loader with item 0 loaded and active, before the drag starts. -/
def tiltDragBase : ModelLoaderState :=
  { baseLoader with
    modelStates := (fun j => if j = 0 then some loadedActiveState else none)
    activeModelId := some 0 }

/-- Loader with item 0 loaded and active and a drag just started at the
origin (left button pressed). -/
def tiltDragLoader : ModelLoaderState := ModelLoader.onMouseDown tiltDragBase 0 0 0

/-- Twenty-two vertical pointer-move samples, each 100 pixels below the
previous one: every sample exceeds the per-sample velocity clamp on the
vertical axis. -/
def verticalMoves22 : List (ℚ × ℚ) :=
  [(0, 100), (0, 200), (0, 300), (0, 400), (0, 500), (0, 600),
   (0, 700), (0, 800), (0, 900), (0, 1000), (0, 1100), (0, 1200),
   (0, 1300), (0, 1400), (0, 1500), (0, 1600), (0, 1700), (0, 1800),
   (0, 1900), (0, 2000), (0, 2100), (0, 2200)]

/-- The same drag extended by a twenty-third over-clamp vertical sample. -/
def verticalMoves23 : List (ℚ × ℚ) := verticalMoves22 ++ [(0, 2300)]

/-- Three vertical over-clamp samples, a short concrete drag. -/
def threeVertMoves : List (ℚ × ℚ) := [(0, 100), (0, 200), (0, 300)]

lemma clamp_abs_le {α : Type} [LinearOrderedField α] (b v : α) (hb : 0 ≤ b) :
    |max (-b) (min b v)| ≤ b := by
  rw [abs_le]
  constructor
  · exact le_max_left _ _
  · exact max_le (neg_le_self hb) (min_le_left _ _)

lemma rotateSeq_bounds {α : Type} [LinearOrderedField α]
    (s b : α) (hb : 0 ≤ b) (ds : List (α × α)) :
    ∀ r : EulerRot α, |r.x| ≤ b →
      |(MouseInteraction.rotateSeq s b r ds).x| ≤ b ∧
      (MouseInteraction.rotateSeq s b r ds).y = r.y + (ds.map Prod.fst).sum * s := by
  induction ds with
  | nil =>
      intro r hr
      refine ⟨hr, ?_⟩
      simp [MouseInteraction.rotateSeq]
  | cons d ds ih =>
      intro r hr
      have hstep : |(MouseInteraction.rotateActiveModel s b r d.1 d.2).x| ≤ b :=
        clamp_abs_le b _ hb
      obtain ⟨h1, h2⟩ := ih (MouseInteraction.rotateActiveModel s b r d.1 d.2) hstep
      refine ⟨by simpa [MouseInteraction.rotateSeq] using h1, ?_⟩
      have hy : (MouseInteraction.rotateActiveModel s b r d.1 d.2).y = r.y + d.1 * s := rfl
      calc (MouseInteraction.rotateSeq s b r (d :: ds)).y
          = (MouseInteraction.rotateSeq s b
              (MouseInteraction.rotateActiveModel s b r d.1 d.2) ds).y := rfl
        _ = (MouseInteraction.rotateActiveModel s b r d.1 d.2).y
              + ((ds.map Prod.fst).sum) * s := h2
        _ = r.y + ((d :: ds).map Prod.fst).sum * s := by
              rw [hy]; simp [List.map_cons]; ring

/-- C1: for every camera state with a transition in flight (isAnimatingCamera
set), calling animateCameraTo is a no-op: the whole state, in particular the
in-flight transition record with its destination position, destination
look-at, start time and duration, is returned unchanged, and no new
transition is started. -/
theorem cameraTransitionNoInterrupt (s : CameraState) (p l : Vec3) (now dur : ℚ)
    (h : s.isAnimatingCamera = true) :
    Controls.animateCameraTo s p l now dur = s := by
  simp [Controls.animateCameraTo, h]

theorem cameraTransitionNoInterrupt_witness :
    inFlightCam.isAnimatingCamera = true ∧
    Controls.animateCameraTo inFlightCam ⟨3, 3, 3⟩ ⟨1, 0, 0⟩ 250 1500 = inFlightCam :=
  ⟨by decide, cameraTransitionNoInterrupt inFlightCam ⟨3, 3, 3⟩ ⟨1, 0, 0⟩ 250 1500 (by decide)⟩

/-- C5: an activation request for the current index or for an index outside
the configured range changes nothing (switchToItem and navigateToItem return
the state unchanged), emits no notification, and raises no error (both
operations are total functions). -/
theorem invalidActivationIsNoop (g : Gallery3DState) (idx : Int) (now : ℚ)
    (h : idx = g.currentIndex ∨ idx < 0 ∨ (g.galleryData.length : Int) ≤ idx) :
    Gallery3D.switchToItem g idx now = (g, []) ∧
    Gallery3D.navigateToItem g idx now = (g, []) := by
  have hg : ¬ (idx ≠ g.currentIndex ∧ 0 ≤ idx ∧ idx < (g.galleryData.length : Int)) := by
    rintro ⟨hne, h0, hl⟩
    rcases h with h | h | h
    · exact hne h
    · exact absurd h0 (not_le.mpr h)
    · exact absurd hl (not_lt.mpr h)
  have hg2 : ¬ (0 ≤ idx ∧ idx < (g.galleryData.length : Int) ∧ idx ≠ g.currentIndex) := by
    rintro ⟨h0, hl, hne⟩
    exact hg ⟨hne, h0, hl⟩
  constructor
  · simp [Gallery3D.switchToItem, hg]
  · simp [Gallery3D.navigateToItem, hg2]

theorem invalidActivationIsNoop_witness :
    ((0 : Int) = twoItemGallery.currentIndex ∨ (0 : Int) < 0 ∨
      (twoItemGallery.galleryData.length : Int) ≤ 0) ∧
    (Gallery3D.switchToItem twoItemGallery 0 5 = (twoItemGallery, []) ∧
     Gallery3D.navigateToItem twoItemGallery 0 5 = (twoItemGallery, [])) :=
  ⟨Or.inl (by decide), invalidActivationIsNoop twoItemGallery 0 5 (Or.inl (by decide))⟩

/-- C10: updateSpotlightConfig with a numeric field set to 0 leaves that
property of every existing light unchanged, because the merge is the
truthiness fallback config.field || light.field. -/
theorem zeroConfigLeavesLights (m : ModelLoaderState) (cfg : SpotlightConfigPatch) (k : Nat) :
    (cfg.intensity = some 0 →
      ((ModelLoader.updateSpotlightConfig m cfg).spotlights k).map (fun sd => sd.light.intensity)
        = (m.spotlights k).map (fun sd => sd.light.intensity)) ∧
    (cfg.distance = some 0 →
      ((ModelLoader.updateSpotlightConfig m cfg).spotlights k).map (fun sd => sd.light.distance)
        = (m.spotlights k).map (fun sd => sd.light.distance)) ∧
    (cfg.angle = some 0 →
      ((ModelLoader.updateSpotlightConfig m cfg).spotlights k).map (fun sd => sd.light.angle)
        = (m.spotlights k).map (fun sd => sd.light.angle)) ∧
    (cfg.penumbra = some 0 →
      ((ModelLoader.updateSpotlightConfig m cfg).spotlights k).map (fun sd => sd.light.penumbra)
        = (m.spotlights k).map (fun sd => sd.light.penumbra)) ∧
    (cfg.decay = some 0 →
      ((ModelLoader.updateSpotlightConfig m cfg).spotlights k).map (fun sd => sd.light.decay)
        = (m.spotlights k).map (fun sd => sd.light.decay)) := by
  refine ⟨?_, ?_, ?_, ?_, ?_⟩ <;> intro h <;>
    cases hk : m.spotlights k <;>
      simp [ModelLoader.updateSpotlightConfig, jsOr, hk, h]

theorem zeroConfigLeavesLights_witness :
    zeroPatch.intensity = some 0 ∧
    ((ModelLoader.updateSpotlightConfig oneSpotLoader zeroPatch).spotlights 0).map
        (fun sd => sd.light.intensity)
      = (oneSpotLoader.spotlights 0).map (fun sd => sd.light.intensity) :=
  ⟨by decide, (zeroConfigLeavesLights oneSpotLoader zeroPatch 0).1 (by decide)⟩

/-- C2 counterexample: in the two-item gallery gFail, item 1 has no scene
object (its load failed), yet switchToItem 1 is not ignored: the current
index becomes 1, the active model id becomes 1, and the failed state's
target opacity is driven to 1, refuting the claim that such requests
produce no state change. -/
theorem failedLoadStillActivates_counterexample :
    gFail.modelLoader.modelStates 1 = some failedState ∧
    failedState.modelObject = none ∧
    (Gallery3D.switchToItem gFail 1 0).1.currentIndex = 1 ∧
    (Gallery3D.switchToItem gFail 1 0).1.modelLoader.activeModelId = some 1 ∧
    ((Gallery3D.switchToItem gFail 1 0).1.modelLoader.modelStates 1).map
      (fun st => st.targetOpacity) = some 1 := by
  decide

/-- C6 counterexample: dragEndLoader is the state at the instant a drag
ended, with the residual velocity still at the clamp maximum; the very next
frame advances the idle rotation of the active model by a nonzero delta, so
idle rotation is not suppressed after drag end. -/
theorem idleResumesImmediately_counterexample :
    dragEndLoader.manualRotation.isDragging = false ∧
    dragEndLoader.manualRotation.velocityX = dragEndLoader.manualRotation.maxSpeed ∧
    ((ModelLoader.update dragEndLoader (1/60) 1).modelStates 0).map
      (fun st => st.autoRotation.currentRotationY) = some (-(1/120)) ∧
    (-(1/120) : ℚ) ≠ 0 := by
  refine ⟨rfl, rfl, ?_, by norm_num⟩
  norm_num [ModelLoader.update, ModelLoader.updateManualRotation,
    ModelLoader.manualRotationAdvance, ModelLoader.updateAutoRotation,
    ModelLoader.applyManualRotationToModel, ModelLoader.applyAutoRotationToModel,
    ModelLoader.modelTransitionStep, ModelLoader.animateSpotlights, updateAt, lerp,
    dragEndLoader, baseLoader, mkModelLoader, loadedActiveState, objZero, pmZero, paZero]

/-- C7 counterexample: at the fixed time step dt = 1 the opacity easing
diverges instead of converging: starting from opacity 0 with target 1, the
distance to the target strictly grows on each of the first two steps
(1, then 2, then 4). -/
theorem fadeDivergence_counterexample :
    opacityGap (ModelLoader.modelTransitionStep 1 (ModelLoader.modelTransitionStep 1 fadeInState))
      > opacityGap (ModelLoader.modelTransitionStep 1 fadeInState) ∧
    opacityGap (ModelLoader.modelTransitionStep 1 fadeInState) > opacityGap fadeInState := by
  norm_num [opacityGap, ModelLoader.modelTransitionStep, lerp, fadeInState,
    loadedActiveState, objZero, pmZero, paZero]

/-- C8 counterexample: a per-frame update with dt = 1 drives the stored
opacity of a fading-in model to 3, outside [0, 1]. -/
theorem opacityOverflow_counterexample :
    ((ModelLoader.update fadeInLoader 1 1).modelStates 0).map (fun st => st.currentOpacity)
      = some 3 ∧ ¬ ((3 : ℚ) ≤ 1) := by
  refine ⟨?_, by norm_num⟩
  norm_num [ModelLoader.update, ModelLoader.updateManualRotation,
    ModelLoader.manualRotationAdvance, ModelLoader.updateAutoRotation,
    ModelLoader.applyManualRotationToModel, ModelLoader.applyAutoRotationToModel,
    ModelLoader.modelTransitionStep, ModelLoader.animateSpotlights, updateAt, lerp,
    fadeInLoader, baseLoader, mkModelLoader, fadeInState, loadedActiveState,
    objZero, pmZero, paZero]

/-- C9 counterexample: after ten pointer-move samples that each exceed the
per-sample clamp, with one frame update per sample, the accumulated target
rotation is 19/40 = 10 x (dampening x maxSpeed), not the claimed
10 x maxSpeed = 1/2. -/
theorem clampedDragAccumulation_counterexample :
    (ModelLoader.dragFrames dragStartLoader tenBigMoves (1/60) 1).manualRotation.targetRotationY
      = 19/40 ∧ ((19 : ℚ)/40 ≠ 10 * (1/20)) := by
  refine ⟨?_, by norm_num⟩
  norm_num [ModelLoader.dragFrames, tenBigMoves, ModelLoader.onMouseMove,
    ModelLoader.onMouseDown, ModelLoader.update, ModelLoader.updateManualRotation,
    ModelLoader.manualRotationAdvance, ModelLoader.updateAutoRotation,
    ModelLoader.applyManualRotationToModel, ModelLoader.applyAutoRotationToModel,
    ModelLoader.modelTransitionStep, ModelLoader.animateSpotlights, updateAt, lerp,
    dragStartLoader, baseLoader, mkModelLoader]

lemma showModel_activeModelId (m : ModelLoaderState) (id : Nat) :
    (ModelLoader.showModel m id).activeModelId = some id := by
  unfold ModelLoader.showModel ModelLoader.activateSpotlight
  cases m.activeModelId <;> rfl

lemma showModel_modelStates_none (m : ModelLoaderState) (id k : Nat)
    (hA : m.activeModelId = none) :
    (ModelLoader.showModel m id).modelStates k =
      if k = id then (m.modelStates k).map ModelLoader.activateState
      else m.modelStates k := by
  unfold ModelLoader.showModel ModelLoader.activateSpotlight updateAt
  rw [hA]

lemma showModel_modelStates_some (m : ModelLoaderState) (id k aid : Nat)
    (hA : m.activeModelId = some aid) :
    (ModelLoader.showModel m id).modelStates k =
      (let base :=
        if k = aid then (m.modelStates k).map ModelLoader.fadeOutState
        else m.modelStates k
       if k = id then base.map ModelLoader.activateState else base) := by
  unfold ModelLoader.showModel ModelLoader.activateSpotlight updateAt
  rw [hA]

lemma showModel_self_targetOpacity (m : ModelLoaderState) (id : Nat) (st : ModelState)
    (h : m.modelStates id = some st) :
    ((ModelLoader.showModel m id).modelStates id).map
        (fun s => (s.targetOpacity, s.modelObject.isSome))
      = some (1, st.modelObject.isSome) := by
  cases hA : m.activeModelId with
  | none =>
      rw [showModel_modelStates_none m id id hA]
      simp [h, ModelLoader.activateState]
  | some aid =>
      rw [showModel_modelStates_some m id id aid hA]
      by_cases hk : id = aid
      · subst hk
        simp [h, ModelLoader.activateState, ModelLoader.fadeOutState]
      · simp [hk, h, ModelLoader.activateState]

lemma showModel_prev_targetOpacity (m : ModelLoaderState) (id aid : Nat) (st : ModelState)
    (hA : m.activeModelId = some aid) (hne : aid ≠ id)
    (h : m.modelStates aid = some st) :
    ((ModelLoader.showModel m id).modelStates aid).map (fun s => s.targetOpacity)
      = some 0 := by
  rw [showModel_modelStates_some m id aid aid hA]
  simp [hne, h, ModelLoader.fadeOutState]

lemma showModel_preserves_ActiveInv (m : ModelLoaderState) (id : Nat)
    (hInv : ActiveInv m) : ActiveInv (ModelLoader.showModel m id) := by
  intro k st hk hop
  rw [showModel_activeModelId]
  by_cases hkid : k = id
  · rw [hkid]
  · exfalso
    cases hA : m.activeModelId with
    | none =>
        rw [showModel_modelStates_none m id k hA, if_neg hkid] at hk
        have := hInv k st hk hop
        rw [hA] at this
        exact Option.noConfusion this
    | some aid =>
        rw [showModel_modelStates_some m id k aid hA] at hk
        simp only [if_neg hkid] at hk
        by_cases hka : k = aid
        · rw [if_pos hka] at hk
          rcases Option.map_eq_some'.mp hk with ⟨st0, _, hst⟩
          rw [← hst] at hop
          simp [ModelLoader.fadeOutState] at hop
        · rw [if_neg hka] at hk
          have := hInv k st hk hop
          rw [hA] at this
          exact hka (Option.some_inj.mp this.symm)

lemma atMostOne_of_activeInv (m : ModelLoaderState) (h : ActiveInv m) :
    AtMostOneActive m.modelStates := by
  intro i j si sj hi hj hop1 hop2
  have h1 := h i si hi hop1
  have h2 := h j sj hj hop2
  exact Option.some_inj.mp (h1.symm.trans h2)

lemma loadStep_activeModelId_ne (env : LoadEnv) (m : ModelLoaderState)
    (item : GalleryItem) (i : Nat) (hi : i ≠ 0) :
    (ModelLoader.loadStep env m item i).activeModelId = m.activeModelId := by
  simp [ModelLoader.loadStep, ModelLoader.createSpotlightForModel, hi]

lemma loadStep_activeModelId_zero (env : LoadEnv) (m : ModelLoaderState)
    (item : GalleryItem) :
    (ModelLoader.loadStep env m item 0).activeModelId = some item.id := by
  simp [ModelLoader.loadStep, ModelLoader.createSpotlightForModel]

lemma loadStep_modelStates_ne (env : LoadEnv) (m : ModelLoaderState)
    (item : GalleryItem) (i k : Nat) (hk : k ≠ item.id) :
    (ModelLoader.loadStep env m item i).modelStates k = m.modelStates k := by
  by_cases hi : i = 0 <;>
    simp [ModelLoader.loadStep, ModelLoader.createSpotlightForModel, hi, hk]

lemma loadStep_modelStates_self (env : LoadEnv) (m : ModelLoaderState)
    (item : GalleryItem) (i : Nat) :
    ((ModelLoader.loadStep env m item i).modelStates item.id).map (fun st => st.targetOpacity)
      = some (if i = 0 then 1 else 0) := by
  by_cases hi : i = 0 <;>
    simp [ModelLoader.loadStep, ModelLoader.createSpotlightForModel,
      ModelLoader.initState, hi]

lemma loadStep_preserves_ActiveInv (env : LoadEnv) (m : ModelLoaderState)
    (item : GalleryItem) (i : Nat) (hi : i ≠ 0) (h : ActiveInv m) :
    ActiveInv (ModelLoader.loadStep env m item i) := by
  intro k st hk hop
  rw [loadStep_activeModelId_ne env m item i hi]
  by_cases hkid : k = item.id
  · exfalso
    have hself := loadStep_modelStates_self env m item i
    rw [← hkid, hk] at hself
    simp [hi, hop] at hself
  · rw [loadStep_modelStates_ne env m item i k hkid] at hk
    exact h k st hk hop

lemma loadSteps_from_preserve_ActiveInv (env : LoadEnv) :
    ∀ (rest : List GalleryItem) (s : Nat) (m : ModelLoaderState), 1 ≤ s →
      ActiveInv m →
      ActiveInv ((List.enumFrom s rest).foldl
        (fun acc p => ModelLoader.loadStep env acc p.2 p.1) m) := by
  intro rest
  induction rest with
  | nil => intro s m _ h; simpa using h
  | cons x xs ih =>
      intro s m hs h
      have h1 : ActiveInv (ModelLoader.loadStep env m x s) :=
        loadStep_preserves_ActiveInv env m x s (by omega) h
      simpa [List.enumFrom] using ih (s + 1) _ (by omega) h1

lemma ActiveInv_loadStep_zero (env : LoadEnv) (a : ℚ) (item : GalleryItem) :
    ActiveInv (ModelLoader.loadStep env (mkModelLoader a) item 0) := by
  intro k st hk hop
  rw [loadStep_activeModelId_zero]
  by_cases hkid : k = item.id
  · rw [hkid]
  · exfalso
    rw [loadStep_modelStates_ne env _ item 0 k hkid] at hk
    simp [mkModelLoader] at hk

lemma ActiveInv_loadModels (env : LoadEnv) (items : List GalleryItem) (a : ℚ) :
    ActiveInv (Gallery3D.loadModels env items (mkModelLoader a)) := by
  cases items with
  | nil =>
      intro k st hk hop
      simp [Gallery3D.loadModels, mkModelLoader] at hk
  | cons it rest =>
      have h0 := ActiveInv_loadStep_zero env a it
      have h1 := loadSteps_from_preserve_ActiveInv env rest 1 _ (le_refl 1) h0
      have h2 := showModel_preserves_ActiveInv _ it.id h1
      simpa [Gallery3D.loadModels, List.enum, List.enumFrom] using h2

lemma switchToItem_preserves_ActiveInv (g : Gallery3DState) (idx : Int) (now : ℚ)
    (h : ActiveInv g.modelLoader) :
    ActiveInv (Gallery3D.switchToItem g idx now).1.modelLoader := by
  by_cases hg : idx ≠ g.currentIndex ∧ 0 ≤ idx ∧ idx < (g.galleryData.length : Int)
  · rw [Gallery3D.switchToItem, if_pos hg]
    cases hgi : g.galleryData.get? idx.toNat with
    | none => simpa using h
    | some item =>
        simpa using showModel_preserves_ActiveInv g.modelLoader item.id h
  · rw [Gallery3D.switchToItem, if_neg hg]
    exact h

lemma activateSeq_preserves_ActiveInv (now : ℚ) :
    ∀ (seq : List Int) (g : Gallery3DState), ActiveInv g.modelLoader →
      ActiveInv (Gallery3D.activateSeq g seq now).modelLoader := by
  intro seq
  induction seq with
  | nil => intro g h; simpa [Gallery3D.activateSeq] using h
  | cons i seq ih =>
      intro g h
      have h1 := switchToItem_preserves_ActiveInv g i now h
      simpa [Gallery3D.activateSeq] using ih _ h1

/-- C3: from the initial state (all items loaded, item 0 active), after any
sequence of activation requests at most one recorded model state has target
opacity 1; and each showModel activation drives the previously active
state's target opacity to 0 and the newly activated state's target opacity
to 1. -/
theorem singleActiveInvariant (env : LoadEnv) (items : List GalleryItem)
    (coneAngle : ℚ) (cam : CameraState) (now : ℚ) (seq : List Int)
    (m : ModelLoaderState) (newId oldId : Nat) (stOld stNew : ModelState)
    (hact : m.activeModelId = some oldId) (hne : oldId ≠ newId)
    (hold : m.modelStates oldId = some stOld) (hnew : m.modelStates newId = some stNew) :
    AtMostOneActive
      (Gallery3D.activateSeq (Gallery3D.initialState env items coneAngle cam)
        seq now).modelLoader.modelStates ∧
    ((ModelLoader.showModel m newId).modelStates oldId).map (fun s => s.targetOpacity)
      = some 0 ∧
    ((ModelLoader.showModel m newId).modelStates newId).map (fun s => s.targetOpacity)
      = some 1 := by
  refine ⟨?_, ?_, ?_⟩
  · apply atMostOne_of_activeInv
    apply activateSeq_preserves_ActiveInv
    exact ActiveInv_loadModels env items coneAngle
  · exact showModel_prev_targetOpacity m newId oldId stOld hact hne hold
  · have := showModel_self_targetOpacity m newId stNew hnew
    rcases Option.map_eq_some'.mp this with ⟨st2, hst2, hpair⟩
    have hfst : st2.targetOpacity = 1 := congrArg Prod.fst hpair
    rw [hst2]
    simp [hfst]

theorem singleActiveInvariant_witness :
    (failLoader.activeModelId = some 0 ∧ (0 : Nat) ≠ 1 ∧
      failLoader.modelStates 0 = some loadedActiveState ∧
      failLoader.modelStates 1 = some failedState) ∧
    (AtMostOneActive
      (Gallery3D.activateSeq (Gallery3D.initialState zeroEnv [⟨0⟩, ⟨1⟩] 1 idleCam)
        [1, 0, 3, -2] 5).modelLoader.modelStates ∧
    ((ModelLoader.showModel failLoader 1).modelStates 0).map (fun s => s.targetOpacity)
      = some 0 ∧
    ((ModelLoader.showModel failLoader 1).modelStates 1).map (fun s => s.targetOpacity)
      = some 1) :=
  ⟨⟨by decide, by decide, by decide, by decide⟩,
    singleActiveInvariant zeroEnv [⟨0⟩, ⟨1⟩] 1 idleCam 5 [1, 0, 3, -2]
      failLoader 1 0 loadedActiveState failedState
      (by decide) (by decide) (by decide) (by decide)⟩

/-- C2 amended: an activation request targeting an in-range index whose
model failed to load (no scene object) is not ignored: the current index
and the active model id do become that index and its target opacity is
driven to 1; only the scene-object writes are skipped, so nothing new is
rendered (the state still has no object). -/
theorem failedLoadActivation (g : Gallery3DState) (idx : Int) (now : ℚ)
    (item : GalleryItem) (st : ModelState)
    (hne : idx ≠ g.currentIndex) (h0 : 0 ≤ idx)
    (hlt : idx < (g.galleryData.length : Int))
    (hget : g.galleryData.get? idx.toNat = some item)
    (hst : g.modelLoader.modelStates item.id = some st)
    (hfail : st.modelObject = none) :
    (Gallery3D.switchToItem g idx now).1.currentIndex = idx ∧
    (Gallery3D.switchToItem g idx now).1.modelLoader.activeModelId = some item.id ∧
    ((Gallery3D.switchToItem g idx now).1.modelLoader.modelStates item.id).map
      (fun s => (s.targetOpacity, s.modelObject)) = some (1, none) := by
  have hg : idx ≠ g.currentIndex ∧ 0 ≤ idx ∧ idx < (g.galleryData.length : Int) :=
    ⟨hne, h0, hlt⟩
  rw [Gallery3D.switchToItem, if_pos hg, hget]
  refine ⟨rfl, ?_, ?_⟩
  · simpa using showModel_activeModelId g.modelLoader item.id
  · have := showModel_self_targetOpacity g.modelLoader item.id st hst
    rcases Option.map_eq_some'.mp this with ⟨st2, hst2, hpair⟩
    have htop : st2.targetOpacity = 1 := congrArg Prod.fst hpair
    have hsnd : st2.modelObject.isSome = st.modelObject.isSome := congrArg Prod.snd hpair
    have hobj : st2.modelObject = none := by
      rw [hfail] at hsnd
      cases hobj2 : st2.modelObject with
      | none => rfl
      | some o =>
          rw [hobj2] at hsnd
          simp at hsnd
    simp [hst2, htop, hobj]

theorem failedLoadActivation_witness :
    ((1 : Int) ≠ gFail.currentIndex ∧ (0 : Int) ≤ 1 ∧
      (1 : Int) < (gFail.galleryData.length : Int) ∧
      gFail.galleryData.get? (1 : Int).toNat = some ⟨1⟩ ∧
      gFail.modelLoader.modelStates 1 = some failedState ∧
      failedState.modelObject = none) ∧
    ((Gallery3D.switchToItem gFail 1 7).1.currentIndex = 1 ∧
     (Gallery3D.switchToItem gFail 1 7).1.modelLoader.activeModelId = some 1 ∧
     ((Gallery3D.switchToItem gFail 1 7).1.modelLoader.modelStates 1).map
       (fun s => (s.targetOpacity, s.modelObject)) = some (1, none)) :=
  ⟨⟨by decide, by decide, by decide, by decide, by decide, by decide⟩,
    failedLoadActivation gFail 1 7 ⟨1⟩ failedState
      (by decide) (by decide) (by decide) (by decide) (by decide) (by decide)⟩

lemma applyManual_proj (g : ManualRotationState) (st : ModelState) :
    (ModelLoader.applyManualRotationToModel g st).autoRotation = st.autoRotation ∧
    (ModelLoader.applyManualRotationToModel g st).currentOpacity = st.currentOpacity ∧
    (ModelLoader.applyManualRotationToModel g st).targetOpacity = st.targetOpacity ∧
    (ModelLoader.applyManualRotationToModel g st).modelObject.isSome = st.modelObject.isSome := by
  cases hm : st.modelObject <;> simp [ModelLoader.applyManualRotationToModel, hm]

lemma applyAuto_proj (cfg : AutoRotationState) (δ : ℚ) (st : ModelState) :
    (ModelLoader.applyAutoRotationToModel cfg δ st).currentOpacity = st.currentOpacity ∧
    (ModelLoader.applyAutoRotationToModel cfg δ st).targetOpacity = st.targetOpacity ∧
    (ModelLoader.applyAutoRotationToModel cfg δ st).modelObject.isSome = st.modelObject.isSome := by
  cases hm : st.modelObject <;> simp [ModelLoader.applyAutoRotationToModel, hm]

lemma applyAuto_currentRotationY (cfg : AutoRotationState) (δ : ℚ) (st : ModelState)
    (hobj : st.modelObject.isSome = true) :
    (ModelLoader.applyAutoRotationToModel cfg δ st).autoRotation.currentRotationY
      = st.autoRotation.currentRotationY + cfg.speed * cfg.direction * δ := by
  rcases Option.isSome_iff_exists.mp hobj with ⟨o, ho⟩
  simp [ModelLoader.applyAutoRotationToModel, ho]

lemma modelTransitionStep_proj (δ : ℚ) (st : ModelState) :
    (ModelLoader.modelTransitionStep δ st).autoRotation = st.autoRotation ∧
    (ModelLoader.modelTransitionStep δ st).targetOpacity = st.targetOpacity ∧
    (ModelLoader.modelTransitionStep δ st).modelObject.isSome = st.modelObject.isSome := by
  cases hm : st.modelObject with
  | none => simp [ModelLoader.modelTransitionStep, hm]
  | some o =>
    simp only [ModelLoader.modelTransitionStep, hm]
    split_ifs <;> simp

lemma animateSpotlights_modelStates (m : ModelLoaderState) (δ pulse : ℚ) :
    (ModelLoader.animateSpotlights m δ pulse).modelStates = m.modelStates := rfl

lemma animateSpotlights_manualRotation (m : ModelLoaderState) (δ pulse : ℚ) :
    (ModelLoader.animateSpotlights m δ pulse).manualRotation = m.manualRotation := rfl

lemma updateManualRotation_fields (m : ModelLoaderState) (δ : ℚ) :
    (ModelLoader.updateManualRotation m δ).manualRotation
        = ModelLoader.manualRotationAdvance m.manualRotation δ ∧
    (ModelLoader.updateManualRotation m δ).activeModelId = m.activeModelId ∧
    (ModelLoader.updateManualRotation m δ).autoRotation = m.autoRotation := by
  simp only [ModelLoader.updateManualRotation]
  split
  · cases m.activeModelId <;> exact ⟨rfl, rfl, rfl⟩
  · exact ⟨rfl, rfl, rfl⟩

lemma updateAutoRotation_manualRotation (m : ModelLoaderState) (δ : ℚ) :
    (ModelLoader.updateAutoRotation m δ).manualRotation = m.manualRotation := by
  simp only [ModelLoader.updateAutoRotation]
  split
  · cases m.activeModelId <;> rfl
  · rfl

lemma manualRotationAdvance_fields (mr : ManualRotationState) (δ : ℚ) :
    (ModelLoader.manualRotationAdvance mr δ).enabled = mr.enabled ∧
    (ModelLoader.manualRotationAdvance mr δ).isDragging = mr.isDragging ∧
    (ModelLoader.manualRotationAdvance mr δ).sensitivity = mr.sensitivity ∧
    (ModelLoader.manualRotationAdvance mr δ).dampening = mr.dampening ∧
    (ModelLoader.manualRotationAdvance mr δ).maxSpeed = mr.maxSpeed ∧
    (ModelLoader.manualRotationAdvance mr δ).lastMouseX = mr.lastMouseX ∧
    (ModelLoader.manualRotationAdvance mr δ).targetRotationY
      = mr.targetRotationY + mr.velocityX * mr.dampening := by
  simp [ModelLoader.manualRotationAdvance]

lemma updateManualRotation_modelStates_map {X : Type} (proj : ModelState → X)
    (hproj : ∀ g st, proj (ModelLoader.applyManualRotationToModel g st) = proj st)
    (m : ModelLoaderState) (δ : ℚ) (k : Nat) :
    ((ModelLoader.updateManualRotation m δ).modelStates k).map proj
      = (m.modelStates k).map proj := by
  simp only [ModelLoader.updateManualRotation]
  split
  · cases hA : m.activeModelId with
    | none => rfl
    | some aid =>
        simp only [updateAt]
        by_cases hk : k = aid
        · rw [if_pos hk, Option.map_map]
          exact Option.map_congr fun a _ => hproj _ a
        · rw [if_neg hk]
  · cases hm : m.modelStates k with
    | none => simp [hm]
    | some st =>
        by_cases hv : st.visible <;> simp [hm, hv, hproj]

lemma updateAutoRotation_modelStates_map {X : Type} (proj : ModelState → X)
    (m : ModelLoaderState) (δ : ℚ)
    (hproj : ∀ st, proj (ModelLoader.applyAutoRotationToModel m.autoRotation δ st) = proj st)
    (k : Nat) :
    ((ModelLoader.updateAutoRotation m δ).modelStates k).map proj
      = (m.modelStates k).map proj := by
  simp only [ModelLoader.updateAutoRotation]
  split
  · cases hA : m.activeModelId with
    | none => rfl
    | some aid =>
        simp only [updateAt]
        by_cases hk : k = aid
        · rw [if_pos hk, Option.map_map]
          exact Option.map_congr fun a _ => hproj a
        · rw [if_neg hk]
  · cases hm : m.modelStates k with
    | none => simp [hm]
    | some st =>
        by_cases hv : st.visible <;> simp [hm, hv, hproj]

lemma update_modelStates (m : ModelLoaderState) (δ pulse : ℚ) (k : Nat) :
    (ModelLoader.update m δ pulse).modelStates k =
      ((if (if m.manualRotation.enabled then ModelLoader.updateManualRotation m δ
            else m).autoRotation.enabled
          ∧ ¬ (if m.manualRotation.enabled then ModelLoader.updateManualRotation m δ
            else m).manualRotation.isDragging
        then ModelLoader.updateAutoRotation
          (if m.manualRotation.enabled then ModelLoader.updateManualRotation m δ else m) δ
        else (if m.manualRotation.enabled then ModelLoader.updateManualRotation m δ
          else m)).modelStates k).map (ModelLoader.modelTransitionStep δ) := rfl

lemma update_manualRotation_of_enabled (m : ModelLoaderState) (δ pulse : ℚ)
    (he : m.manualRotation.enabled = true) :
    (ModelLoader.update m δ pulse).manualRotation
      = ModelLoader.manualRotationAdvance m.manualRotation δ := by
  have h1 : (if m.manualRotation.enabled then ModelLoader.updateManualRotation m δ else m)
      = ModelLoader.updateManualRotation m δ := if_pos he
  simp only [ModelLoader.update, animateSpotlights_manualRotation, h1]
  split
  · rw [updateAutoRotation_manualRotation]
    exact (updateManualRotation_fields m δ).1
  · exact (updateManualRotation_fields m δ).1

/-- C6 amended: while a drag is in progress the idle auto-rotation
contributes zero delta to every model that frame; but the moment isDragging
is false, the very next frame advances the active model's idle angle by
speed x direction x delta, regardless of the residual drag velocity - no
velocity threshold and no grace period gates the model idle rotation (the
2-second endInteraction timer in Gallery3D.onModelInteract only drives the
orbit-camera auto-rotate in Controls, not the model idle spin). -/
theorem idleDragExclusion (m : ModelLoaderState) (δ pulse : ℚ) (k aid : Nat)
    (st : ModelState) :
    (m.manualRotation.isDragging = true →
      ((ModelLoader.update m δ pulse).modelStates k).map
          (fun s => s.autoRotation.currentRotationY)
        = (m.modelStates k).map (fun s => s.autoRotation.currentRotationY)) ∧
    (m.manualRotation.isDragging = false → m.autoRotation.enabled = true →
      m.autoRotation.rotateActiveOnly = true → m.activeModelId = some aid →
      m.modelStates aid = some st → st.modelObject.isSome = true →
      ((ModelLoader.update m δ pulse).modelStates aid).map
          (fun s => s.autoRotation.currentRotationY)
        = some (st.autoRotation.currentRotationY
            + m.autoRotation.speed * m.autoRotation.direction * δ)) := by
  have hstepY : ∀ s : ModelState,
      (ModelLoader.modelTransitionStep δ s).autoRotation.currentRotationY
        = s.autoRotation.currentRotationY := by
    intro s; rw [(modelTransitionStep_proj δ s).1]
  have hmanY : ∀ (g : ManualRotationState) (s : ModelState),
      (ModelLoader.applyManualRotationToModel g s).autoRotation.currentRotationY
        = s.autoRotation.currentRotationY := by
    intro g s; rw [(applyManual_proj g s).1]
  constructor
  · intro hd
    rw [update_modelStates m δ pulse k]
    have hd1 : (if m.manualRotation.enabled then ModelLoader.updateManualRotation m δ
        else m).manualRotation.isDragging = true := by
      split
      · rw [(updateManualRotation_fields m δ).1,
          (manualRotationAdvance_fields m.manualRotation δ).2.1]
        exact hd
      · exact hd
    rw [if_neg (by simp [hd1])]
    rw [Option.map_map]
    have hcomp :
        ((if m.manualRotation.enabled then ModelLoader.updateManualRotation m δ
            else m).modelStates k).map
          ((fun s => s.autoRotation.currentRotationY) ∘ ModelLoader.modelTransitionStep δ)
        = ((if m.manualRotation.enabled then ModelLoader.updateManualRotation m δ
            else m).modelStates k).map (fun s => s.autoRotation.currentRotationY) :=
      Option.map_congr fun a _ => hstepY a
    rw [hcomp]
    split
    · exact updateManualRotation_modelStates_map _ hmanY m δ k
    · rfl
  · intro hd hen hao hA hst hobj
    rw [update_modelStates m δ pulse aid]
    have h1mr : (if m.manualRotation.enabled then ModelLoader.updateManualRotation m δ
        else m).manualRotation.isDragging = false := by
      split
      · rw [(updateManualRotation_fields m δ).1,
          (manualRotationAdvance_fields m.manualRotation δ).2.1]
        exact hd
      · exact hd
    have h1auto : (if m.manualRotation.enabled then ModelLoader.updateManualRotation m δ
        else m).autoRotation = m.autoRotation := by
      split
      · exact (updateManualRotation_fields m δ).2.2
      · rfl
    have h1A : (if m.manualRotation.enabled then ModelLoader.updateManualRotation m δ
        else m).activeModelId = some aid := by
      split
      · rw [(updateManualRotation_fields m δ).2.1]; exact hA
      · exact hA
    have h1map : ((if m.manualRotation.enabled then ModelLoader.updateManualRotation m δ
        else m).modelStates aid).map
          (fun s => (s.autoRotation.currentRotationY, s.modelObject.isSome))
        = some (st.autoRotation.currentRotationY, true) := by
      have base : (m.modelStates aid).map
          (fun s => (s.autoRotation.currentRotationY, s.modelObject.isSome))
          = some (st.autoRotation.currentRotationY, true) := by
        rw [hst]; simp [hobj]
      split
      · rw [updateManualRotation_modelStates_map
          (fun s => (s.autoRotation.currentRotationY, s.modelObject.isSome))
          (fun g s => by
            dsimp only
            rw [(applyManual_proj g s).1, (applyManual_proj g s).2.2.2]) m δ aid]
        exact base
      · exact base
    rcases Option.map_eq_some'.mp h1map with ⟨st1, hst1, hpair1⟩
    have hY1 : st1.autoRotation.currentRotationY = st.autoRotation.currentRotationY :=
      congrArg Prod.fst hpair1
    have hS1 : st1.modelObject.isSome = true := congrArg Prod.snd hpair1
    rw [if_pos ⟨by rw [h1auto]; exact hen, by simp [h1mr]⟩]
    have hcond : (if m.manualRotation.enabled then ModelLoader.updateManualRotation m δ
        else m).autoRotation.rotateActiveOnly = true := by
      rw [h1auto]; exact hao
    simp only [ModelLoader.updateAutoRotation, hcond, h1A, updateAt, if_true,
      eq_self_iff_true]
    rw [hst1]
    simp only [h1auto, Option.map_some, Option.map_map, Function.comp_apply]
    show some ((ModelLoader.modelTransitionStep δ
        (ModelLoader.applyAutoRotationToModel m.autoRotation δ st1)).autoRotation.currentRotationY)
      = some (st.autoRotation.currentRotationY
          + m.autoRotation.speed * m.autoRotation.direction * δ)
    rw [hstepY, applyAuto_currentRotationY m.autoRotation δ st1 hS1, hY1]

theorem idleDragExclusion_witness :
    (dragStartLoader.manualRotation.isDragging = true ∧
      ((ModelLoader.update dragStartLoader (1/60) 1).modelStates 0).map
          (fun s => s.autoRotation.currentRotationY)
        = (dragStartLoader.modelStates 0).map (fun s => s.autoRotation.currentRotationY)) ∧
    ((dragEndLoader.manualRotation.isDragging = false ∧
      dragEndLoader.autoRotation.enabled = true ∧
      dragEndLoader.autoRotation.rotateActiveOnly = true ∧
      dragEndLoader.activeModelId = some 0 ∧
      dragEndLoader.modelStates 0 = some loadedActiveState ∧
      loadedActiveState.modelObject.isSome = true) ∧
      ((ModelLoader.update dragEndLoader (1/60) 1).modelStates 0).map
          (fun s => s.autoRotation.currentRotationY)
        = some (loadedActiveState.autoRotation.currentRotationY
            + dragEndLoader.autoRotation.speed * dragEndLoader.autoRotation.direction * (1/60))) :=
  ⟨⟨by decide,
    (idleDragExclusion dragStartLoader (1/60) 1 0 0 loadedActiveState).1 (by decide)⟩,
   ⟨⟨by decide, by decide, by decide, by decide, by decide, by decide⟩,
    (idleDragExclusion dragEndLoader (1/60) 1 0 0 loadedActiveState).2
      (by decide) (by decide) (by decide) (by decide) (by decide) (by decide)⟩⟩

lemma modelTransitionStep_gap_le (δ : ℚ) (st : ModelState) (h3 : δ * 3 ≤ 1)
    (hs : st.modelObject.isSome = true) :
    opacityGap (ModelLoader.modelTransitionStep δ st) ≤ (1 - δ * 3) * opacityGap st := by
  rcases Option.isSome_iff_exists.mp hs with ⟨o, ho⟩
  have hr0 : (0 : ℚ) ≤ 1 - δ * 3 := by linarith
  simp only [ModelLoader.modelTransitionStep, ho]
  have hlerp : |lerp st.currentOpacity st.targetOpacity (δ * 3) - st.targetOpacity|
      = (1 - δ * 3) * |st.currentOpacity - st.targetOpacity| := by
    have h : lerp st.currentOpacity st.targetOpacity (δ * 3) - st.targetOpacity
        = (1 - δ * 3) * (st.currentOpacity - st.targetOpacity) := by
      unfold lerp; ring
    rw [h, abs_mul, abs_of_nonneg hr0]
  split_ifs with h1 h2
  · simp only [opacityGap]
    rw [h1.2]
    simp only [sub_zero, abs_zero]
    exact mul_nonneg hr0 (abs_nonneg _)
  · simp only [opacityGap]
    rw [hlerp]
  · simp only [opacityGap]
    rw [hlerp]

lemma modelTransitionStep_iterate_isSome (δ : ℚ) (st : ModelState) (n : Nat) :
    ((ModelLoader.modelTransitionStep δ)^[n] st).modelObject.isSome
      = st.modelObject.isSome := by
  induction n with
  | zero => rfl
  | succ n ih => rw [Function.iterate_succ_apply', (modelTransitionStep_proj δ _).2.2, ih]

lemma modelTransitionStep_gap_iterate (δ : ℚ) (st : ModelState) (h3 : δ * 3 ≤ 1)
    (hs : st.modelObject.isSome = true) (n : Nat) :
    opacityGap ((ModelLoader.modelTransitionStep δ)^[n] st)
      ≤ (1 - δ * 3) ^ n * opacityGap st := by
  have hr0 : (0 : ℚ) ≤ 1 - δ * 3 := by linarith
  induction n with
  | zero => simp
  | succ n ih =>
      rw [Function.iterate_succ_apply']
      have hsn : ((ModelLoader.modelTransitionStep δ)^[n] st).modelObject.isSome = true := by
        rw [modelTransitionStep_iterate_isSome]; exact hs
      calc opacityGap (ModelLoader.modelTransitionStep δ
              ((ModelLoader.modelTransitionStep δ)^[n] st))
          ≤ (1 - δ * 3) * opacityGap ((ModelLoader.modelTransitionStep δ)^[n] st) :=
            modelTransitionStep_gap_le δ _ h3 hsn
        _ ≤ (1 - δ * 3) * ((1 - δ * 3) ^ n * opacityGap st) :=
            mul_le_mul_of_nonneg_left ih hr0
        _ = (1 - δ * 3) ^ (n + 1) * opacityGap st := by ring

lemma modelTransitionStep_snap (δ : ℚ) (st : ModelState)
    (hs : st.modelObject.isSome = true) (ht : st.targetOpacity = 0)
    (hl : lerp st.currentOpacity st.targetOpacity (δ * 3) < 1/100) :
    (ModelLoader.modelTransitionStep δ st).currentOpacity = 0 ∧
    (ModelLoader.modelTransitionStep δ st).visible = false := by
  rcases Option.isSome_iff_exists.mp hs with ⟨o, ho⟩
  simp only [ModelLoader.modelTransitionStep, ho]
  rw [if_pos ⟨hl, ht⟩]
  exact ⟨rfl, rfl⟩

/-- C7 amended: for a loaded model and any fixed time step dt with
0 < dt and dt * 3 <= 1, the per-frame opacity easing converges
monotonically: each step multiplies the distance to the target by at most
the factor 1 - 3 dt (so there is no oscillation), for every epsilon
there is an iteration count past which the distance stays under epsilon,
and a fading-out model whose eased opacity falls under 0.01 with target 0
is snapped to exactly 0 and marked invisible.  At time steps with
dt * 3 > 1 the easing can oscillate and diverge (see the C7
counterexample). -/
theorem fadeConvergence (st : ModelState) (δ : ℚ) (h0 : 0 < δ) (h3 : δ * 3 ≤ 1)
    (hs : st.modelObject.isSome = true) :
    (∀ n, opacityGap ((ModelLoader.modelTransitionStep δ)^[n + 1] st)
        ≤ (1 - δ * 3) * opacityGap ((ModelLoader.modelTransitionStep δ)^[n] st)) ∧
    (∀ ε : ℚ, 0 < ε → ∃ N, ∀ n, N ≤ n →
      opacityGap ((ModelLoader.modelTransitionStep δ)^[n] st) < ε) ∧
    (st.targetOpacity = 0 → lerp st.currentOpacity st.targetOpacity (δ * 3) < 1/100 →
      (ModelLoader.modelTransitionStep δ st).currentOpacity = 0 ∧
      (ModelLoader.modelTransitionStep δ st).visible = false) := by
  have hr0 : (0 : ℚ) ≤ 1 - δ * 3 := by linarith
  have hr1 : (1 - δ * 3 : ℚ) < 1 := by linarith
  refine ⟨?_, ?_, fun ht hl => modelTransitionStep_snap δ st hs ht hl⟩
  · intro n
    rw [Function.iterate_succ_apply']
    exact modelTransitionStep_gap_le δ _ h3
      (by rw [modelTransitionStep_iterate_isSome]; exact hs)
  · intro ε hε
    have hgap0 : (0 : ℚ) ≤ opacityGap st := abs_nonneg _
    have hpos : (0 : ℚ) < ε / (opacityGap st + 1) := by positivity
    obtain ⟨N, hN⟩ := exists_pow_lt_of_lt_one hpos hr1
    refine ⟨N, fun n hn => ?_⟩
    have h1 : opacityGap ((ModelLoader.modelTransitionStep δ)^[n] st)
        ≤ (1 - δ * 3) ^ n * opacityGap st :=
      modelTransitionStep_gap_iterate δ st h3 hs n
    have h2 : (1 - δ * 3 : ℚ) ^ n ≤ (1 - δ * 3) ^ N :=
      pow_le_pow_of_le_one hr0 (le_of_lt hr1) hn
    have h4 : (1 - δ * 3 : ℚ) ^ n * opacityGap st ≤ (1 - δ * 3) ^ N * (opacityGap st + 1) := by
      have := mul_le_mul h2 (by linarith : opacityGap st ≤ opacityGap st + 1)
        hgap0 (pow_nonneg hr0 N)
      exact this
    have h5 : (1 - δ * 3 : ℚ) ^ N * (opacityGap st + 1) < ε := by
      have hlt := mul_lt_mul_of_pos_right hN (by positivity : (0:ℚ) < opacityGap st + 1)
      rwa [div_mul_cancel₀ ε (by positivity : (opacityGap st + 1 : ℚ) ≠ 0)] at hlt
    linarith

theorem fadeConvergence_witness :
    (0 < (1/6 : ℚ) ∧ (1/6 : ℚ) * 3 ≤ 1 ∧ fadeInState.modelObject.isSome = true) ∧
    ((∀ n, opacityGap ((ModelLoader.modelTransitionStep (1/6))^[n + 1] fadeInState)
        ≤ (1 - (1/6) * 3) * opacityGap ((ModelLoader.modelTransitionStep (1/6))^[n] fadeInState)) ∧
    (∀ ε : ℚ, 0 < ε → ∃ N, ∀ n, N ≤ n →
      opacityGap ((ModelLoader.modelTransitionStep (1/6))^[n] fadeInState) < ε) ∧
    (fadeInState.targetOpacity = 0 →
      lerp fadeInState.currentOpacity fadeInState.targetOpacity ((1/6) * 3) < 1/100 →
      (ModelLoader.modelTransitionStep (1/6) fadeInState).currentOpacity = 0 ∧
      (ModelLoader.modelTransitionStep (1/6) fadeInState).visible = false)) :=
  ⟨⟨by norm_num, by norm_num, by decide⟩,
    fadeConvergence fadeInState (1/6) (by norm_num) (by norm_num) (by decide)⟩

lemma lerp_mem_unitInterval (c t f : ℚ) (hf0 : 0 ≤ f) (hf1 : f ≤ 1)
    (hc0 : 0 ≤ c) (hc1 : c ≤ 1) (ht0 : 0 ≤ t) (ht1 : t ≤ 1) :
    0 ≤ lerp c t f ∧ lerp c t f ≤ 1 := by
  unfold lerp
  constructor
  · nlinarith [mul_nonneg hf0 ht0, mul_le_mul_of_nonneg_right hf1 hc0]
  · nlinarith [mul_le_mul_of_nonneg_left ht1 hf0, mul_le_mul_of_nonneg_right hf1 hc0]

lemma modelTransitionStep_range (δ : ℚ) (st : ModelState) (h0 : 0 ≤ δ)
    (h3 : δ * 3 ≤ 1) (h : OpacityInRangeState st) :
    OpacityInRangeState (ModelLoader.modelTransitionStep δ st) := by
  obtain ⟨hc0, hc1, ht0, ht1⟩ := h
  cases ho : st.modelObject with
  | none => simpa [ModelLoader.modelTransitionStep, ho, OpacityInRangeState]
      using ⟨hc0, hc1, ht0, ht1⟩
  | some o =>
      have hf0 : (0 : ℚ) ≤ δ * 3 := by linarith
      obtain ⟨hl0, hl1⟩ := lerp_mem_unitInterval st.currentOpacity st.targetOpacity (δ * 3)
        hf0 h3 hc0 hc1 ht0 ht1
      simp only [ModelLoader.modelTransitionStep, ho]
      split_ifs
      · exact ⟨le_refl 0, by norm_num, ht0, ht1⟩
      · exact ⟨hl0, hl1, ht0, ht1⟩
      · exact ⟨hl0, hl1, ht0, ht1⟩

lemma fadeOutState_range (st : ModelState) (h : OpacityInRangeState st) :
    OpacityInRangeState (ModelLoader.fadeOutState st) := by
  obtain ⟨hc0, hc1, _, _⟩ := h
  exact ⟨hc0, hc1, le_refl 0, zero_le_one⟩

lemma activateState_range (st : ModelState) (h : OpacityInRangeState st) :
    OpacityInRangeState (ModelLoader.activateState st) := by
  obtain ⟨hc0, hc1, _, _⟩ := h
  exact ⟨hc0, hc1, zero_le_one, le_refl 1⟩

lemma showModel_preserves_OpacityInRange (m : ModelLoaderState) (id : Nat)
    (h : OpacityInRange m.modelStates) :
    OpacityInRange (ModelLoader.showModel m id).modelStates := by
  intro k st hk
  cases hA : m.activeModelId with
  | none =>
      rw [showModel_modelStates_none m id k hA] at hk
      by_cases hkid : k = id
      · rw [if_pos hkid] at hk
        rcases Option.map_eq_some'.mp hk with ⟨st0, h0, hst⟩
        rw [← hst]
        exact activateState_range st0 (h k st0 h0)
      · rw [if_neg hkid] at hk
        exact h k st hk
  | some aid =>
      rw [showModel_modelStates_some m id k aid hA] at hk
      simp only at hk
      by_cases hkid : k = id
      · rw [if_pos hkid] at hk
        rcases Option.map_eq_some'.mp hk with ⟨st0, h0, hst⟩
        rw [← hst]
        apply activateState_range
        by_cases hka : k = aid
        · rw [if_pos hka] at h0
          rcases Option.map_eq_some'.mp h0 with ⟨st00, h00, hst0⟩
          rw [← hst0]
          exact fadeOutState_range st00 (h k st00 h00)
        · rw [if_neg hka] at h0
          exact h k st0 h0
      · rw [if_neg hkid] at hk
        by_cases hka : k = aid
        · rw [if_pos hka] at hk
          rcases Option.map_eq_some'.mp hk with ⟨st0, h0, hst⟩
          rw [← hst]
          exact fadeOutState_range st0 (h k st0 h0)
        · rw [if_neg hka] at hk
          exact h k st hk

/-- C8 amended: both stored opacities of every model state lie in [0, 1]
after initialisation (loadModel writes 0 or 1), after every activation
(showModel writes targets 0 and 1 and keeps current opacities), and after
every per-frame update whose time delta satisfies 0 <= dt and dt * 3 <= 1;
an arbitrary non-negative dt can overshoot the interval (see the C8
counterexample). -/
theorem opacityRangeInvariant (env : LoadEnv) (i : Nat) :
    OpacityInRangeState (ModelLoader.initState env i) ∧
    (∀ (m : ModelLoaderState) (id : Nat), OpacityInRange m.modelStates →
      OpacityInRange (ModelLoader.showModel m id).modelStates) ∧
    (∀ (m : ModelLoaderState) (δ pulse : ℚ), 0 ≤ δ → δ * 3 ≤ 1 →
      OpacityInRange m.modelStates →
      OpacityInRange (ModelLoader.update m δ pulse).modelStates) := by
  refine ⟨?_, showModel_preserves_OpacityInRange, ?_⟩
  · by_cases hi : i = 0 <;>
      simp [ModelLoader.initState, OpacityInRangeState, hi]
  · intro m δ pulse h0 h3 h
    intro k st hk
    rw [update_modelStates m δ pulse k] at hk
    rcases Option.map_eq_some'.mp hk with ⟨st2, h2, hstep⟩
    have hproj : ∀ (g : ManualRotationState) (s : ModelState),
        (fun s : ModelState => (s.currentOpacity, s.targetOpacity))
            (ModelLoader.applyManualRotationToModel g s)
          = (fun s : ModelState => (s.currentOpacity, s.targetOpacity)) s := by
      intro g s
      dsimp only
      rw [(applyManual_proj g s).2.1, (applyManual_proj g s).2.2.1]
    have hm1map : ∀ j,
        ((if m.manualRotation.enabled then ModelLoader.updateManualRotation m δ
            else m).modelStates j).map (fun s => (s.currentOpacity, s.targetOpacity))
          = (m.modelStates j).map (fun s => (s.currentOpacity, s.targetOpacity)) := by
      intro j
      split
      · exact updateManualRotation_modelStates_map _ hproj m δ j
      · rfl
    have hm2map : ∀ j,
        ((if (if m.manualRotation.enabled then ModelLoader.updateManualRotation m δ
              else m).autoRotation.enabled
            ∧ ¬ (if m.manualRotation.enabled then ModelLoader.updateManualRotation m δ
              else m).manualRotation.isDragging
          then ModelLoader.updateAutoRotation
            (if m.manualRotation.enabled then ModelLoader.updateManualRotation m δ else m) δ
          else (if m.manualRotation.enabled then ModelLoader.updateManualRotation m δ
            else m)).modelStates j).map (fun s => (s.currentOpacity, s.targetOpacity))
          = (m.modelStates j).map (fun s => (s.currentOpacity, s.targetOpacity)) := by
      intro j
      by_cases hcond : (if m.manualRotation.enabled then ModelLoader.updateManualRotation m δ
            else m).autoRotation.enabled = true
          ∧ ¬ (if m.manualRotation.enabled then ModelLoader.updateManualRotation m δ
            else m).manualRotation.isDragging = true
      · rw [if_pos hcond]
        rw [updateAutoRotation_modelStates_map (fun s => (s.currentOpacity, s.targetOpacity))
          (if m.manualRotation.enabled then ModelLoader.updateManualRotation m δ else m) δ
          (fun s => by
            dsimp only
            rw [(applyAuto_proj _ δ s).1, (applyAuto_proj _ δ s).2.1]) j]
        exact hm1map j
      · rw [if_neg hcond]
        exact hm1map j
    have hm2 := hm2map k
    rw [h2] at hm2
    rcases Option.map_eq_some'.mp hm2.symm with ⟨st0, h0m, hpair⟩
    have hcur : st0.currentOpacity = st2.currentOpacity := congrArg Prod.fst hpair
    have htar : st0.targetOpacity = st2.targetOpacity := congrArg Prod.snd hpair
    have hr0 := h k st0 h0m
    have hr2 : OpacityInRangeState st2 := by
      obtain ⟨a, b, c, d⟩ := hr0
      exact ⟨hcur ▸ a, hcur ▸ b, htar ▸ c, htar ▸ d⟩
    rw [← hstep]
    exact modelTransitionStep_range δ st2 h0 h3 hr2

theorem opacityRangeInvariant_witness :
    OpacityInRange fadeInLoader.modelStates ∧
    (OpacityInRangeState (ModelLoader.initState zeroEnv 3) ∧
     OpacityInRange (ModelLoader.showModel fadeInLoader 0).modelStates ∧
     OpacityInRange (ModelLoader.update fadeInLoader (1/6) 1).modelStates) :=
  have hin : OpacityInRange fadeInLoader.modelStates := by
    intro k st hk
    by_cases hk0 : k = 0
    · rw [hk0] at hk
      have : some fadeInState = some st := by
        simpa [fadeInLoader, baseLoader, mkModelLoader] using hk
      rw [← Option.some_inj.mp this]
      exact ⟨by norm_num [fadeInState, loadedActiveState],
        by norm_num [fadeInState, loadedActiveState],
        by norm_num [fadeInState, loadedActiveState],
        by norm_num [fadeInState, loadedActiveState]⟩
    · exfalso
      simp [fadeInLoader, baseLoader, mkModelLoader, hk0] at hk
  ⟨hin,
   ⟨(opacityRangeInvariant zeroEnv 3).1,
    (opacityRangeInvariant zeroEnv 3).2.1 fadeInLoader 0 hin,
    (opacityRangeInvariant zeroEnv 3).2.2 fadeInLoader (1/6) 1
      (by norm_num) (by norm_num) hin⟩⟩

lemma onMouseMove_manualRotation (m : ModelLoaderState) (x y : ℚ)
    (he : m.manualRotation.enabled = true) (hd : m.manualRotation.isDragging = true) :
    (ModelLoader.onMouseMove m x y).manualRotation =
      { m.manualRotation with
        velocityX := max (-m.manualRotation.maxSpeed)
          (min m.manualRotation.maxSpeed
            ((x - m.manualRotation.lastMouseX) * m.manualRotation.sensitivity))
        velocityY := max (-m.manualRotation.maxSpeed)
          (min m.manualRotation.maxSpeed
            ((y - m.manualRotation.lastMouseY) * m.manualRotation.sensitivity))
        lastMouseX := x
        lastMouseY := y } := by
  simp [ModelLoader.onMouseMove, he, hd]

lemma dragFrames_targetRotationY (δ pulse : ℚ) :
    ∀ (ps : List (ℚ × ℚ)) (m : ModelLoaderState),
      m.manualRotation.enabled = true → m.manualRotation.isDragging = true →
      m.manualRotation.sensitivity = 1/20 → m.manualRotation.dampening = 19/20 →
      m.manualRotation.maxSpeed = 1/20 →
      exceedsClampB (1/20) (1/20) m.manualRotation.lastMouseX ps = true →
      (ModelLoader.dragFrames m ps δ pulse).manualRotation.targetRotationY
        = m.manualRotation.targetRotationY + ps.length * (19/400) := by
  intro ps
  induction ps with
  | nil =>
      intro m he hd hs hdamp hms hch
      simp [ModelLoader.dragFrames]
  | cons p ps ih =>
      intro m he hd hs hdamp hms hch
      rw [exceedsClampB, Bool.and_eq_true] at hch
      obtain ⟨h1, h2⟩ := hch
      have hge : (1 : ℚ)/20 ≤ (p.1 - m.manualRotation.lastMouseX) * (1/20) :=
        of_decide_eq_true h1
      have hmove := onMouseMove_manualRotation m p.1 p.2 he hd
      have he2 : (ModelLoader.onMouseMove m p.1 p.2).manualRotation.enabled = true := by
        rw [hmove]; exact he
      have hupd := update_manualRotation_of_enabled (ModelLoader.onMouseMove m p.1 p.2) δ pulse he2
      have hvx : (ModelLoader.onMouseMove m p.1 p.2).manualRotation.velocityX = 1/20 := by
        rw [hmove]
        show max (-m.manualRotation.maxSpeed)
          (min m.manualRotation.maxSpeed
            ((p.1 - m.manualRotation.lastMouseX) * m.manualRotation.sensitivity)) = 1/20
        rw [hms, hs, min_eq_left hge]
        norm_num
      have hmr2 := manualRotationAdvance_fields
        (ModelLoader.onMouseMove m p.1 p.2).manualRotation δ
      have he3 : (ModelLoader.update (ModelLoader.onMouseMove m p.1 p.2) δ
          pulse).manualRotation.enabled = true := by
        rw [hupd, hmr2.1, hmove]; exact he
      have hd3 : (ModelLoader.update (ModelLoader.onMouseMove m p.1 p.2) δ
          pulse).manualRotation.isDragging = true := by
        rw [hupd, hmr2.2.1, hmove]; exact hd
      have hs3 : (ModelLoader.update (ModelLoader.onMouseMove m p.1 p.2) δ
          pulse).manualRotation.sensitivity = 1/20 := by
        rw [hupd, hmr2.2.2.1, hmove]; exact hs
      have hdamp3 : (ModelLoader.update (ModelLoader.onMouseMove m p.1 p.2) δ
          pulse).manualRotation.dampening = 19/20 := by
        rw [hupd, hmr2.2.2.2.1, hmove]; exact hdamp
      have hms3 : (ModelLoader.update (ModelLoader.onMouseMove m p.1 p.2) δ
          pulse).manualRotation.maxSpeed = 1/20 := by
        rw [hupd, hmr2.2.2.2.2.1, hmove]; exact hms
      have hlast3 : (ModelLoader.update (ModelLoader.onMouseMove m p.1 p.2) δ
          pulse).manualRotation.lastMouseX = p.1 := by
        rw [hupd, hmr2.2.2.2.2.2.1, hmove]
      have hch3 : exceedsClampB (1/20) (1/20)
          (ModelLoader.update (ModelLoader.onMouseMove m p.1 p.2) δ
            pulse).manualRotation.lastMouseX ps = true := by
        rw [hlast3]; exact h2
      have htY : (ModelLoader.update (ModelLoader.onMouseMove m p.1 p.2) δ
          pulse).manualRotation.targetRotationY
          = m.manualRotation.targetRotationY + 19/400 := by
        rw [hupd, hmr2.2.2.2.2.2.2, hvx]
        have hdamp2 : (ModelLoader.onMouseMove m p.1 p.2).manualRotation.dampening
            = 19/20 := by rw [hmove]; exact hdamp
        have htY2 : (ModelLoader.onMouseMove m p.1 p.2).manualRotation.targetRotationY
            = m.manualRotation.targetRotationY := by rw [hmove]
        rw [hdamp2, htY2]
        norm_num
      have hstep : ModelLoader.dragFrames m (p :: ps) δ pulse
          = ModelLoader.dragFrames
              (ModelLoader.update (ModelLoader.onMouseMove m p.1 p.2) δ pulse) ps δ pulse := rfl
      rw [hstep, ih _ he3 hd3 hs3 hdamp3 hms3 hch3, htY, List.length_cons]
      push_cast
      ring

/-- C9 amended: for a drag of ten pointer-move samples that each exceed the
per-sample clamp (with one frame update per sample), the accumulated target
rotation equals exactly 10 x (dampening x maxSpeed) - each sample
contributes the clamped maximum scaled by the dampening factor applied
before accumulation - and this differs from the claimed 10 x clamped
maximum.  The sum is independent of the raw sample magnitudes, so it is
also not the unclamped sum. -/
theorem clampedDragAccumulation (m : ModelLoaderState) (ps : List (ℚ × ℚ))
    (δ pulse : ℚ)
    (he : m.manualRotation.enabled = true) (hd : m.manualRotation.isDragging = true)
    (hs : m.manualRotation.sensitivity = 1/20) (hdamp : m.manualRotation.dampening = 19/20)
    (hms : m.manualRotation.maxSpeed = 1/20)
    (hch : exceedsClampB (1/20) (1/20) m.manualRotation.lastMouseX ps = true)
    (hlen : ps.length = 10) :
    (ModelLoader.dragFrames m ps δ pulse).manualRotation.targetRotationY
      = m.manualRotation.targetRotationY
        + 10 * (m.manualRotation.dampening * m.manualRotation.maxSpeed) ∧
    10 * (m.manualRotation.dampening * m.manualRotation.maxSpeed)
      ≠ 10 * m.manualRotation.maxSpeed := by
  rw [hdamp, hms]
  constructor
  · rw [dragFrames_targetRotationY δ pulse ps m he hd hs hdamp hms hch, hlen]
    norm_num
  · norm_num

theorem clampedDragAccumulation_witness :
    (dragStartLoader.manualRotation.enabled = true ∧
     dragStartLoader.manualRotation.isDragging = true ∧
     dragStartLoader.manualRotation.sensitivity = 1/20 ∧
     dragStartLoader.manualRotation.dampening = 19/20 ∧
     dragStartLoader.manualRotation.maxSpeed = 1/20 ∧
     exceedsClampB (1/20) (1/20) dragStartLoader.manualRotation.lastMouseX tenBigMoves
       = true ∧
     tenBigMoves.length = 10) ∧
    ((ModelLoader.dragFrames dragStartLoader tenBigMoves (1/60) 1).manualRotation.targetRotationY
      = dragStartLoader.manualRotation.targetRotationY
        + 10 * (dragStartLoader.manualRotation.dampening
            * dragStartLoader.manualRotation.maxSpeed) ∧
    10 * (dragStartLoader.manualRotation.dampening * dragStartLoader.manualRotation.maxSpeed)
      ≠ 10 * dragStartLoader.manualRotation.maxSpeed) :=
  have hch : exceedsClampB (1/20) (1/20) dragStartLoader.manualRotation.lastMouseX
      tenBigMoves = true := by
    norm_num [exceedsClampB, tenBigMoves, dragStartLoader, ModelLoader.onMouseDown,
      baseLoader, mkModelLoader]
  ⟨⟨rfl, rfl, rfl, rfl, rfl, hch, rfl⟩,
    clampedDragAccumulation dragStartLoader tenBigMoves (1/60) 1
      rfl rfl rfl rfl rfl hch rfl⟩

lemma manualRotationAdvance_more (mr : ManualRotationState) (δ : ℚ) :
    (ModelLoader.manualRotationAdvance mr δ).rotateActiveOnly = mr.rotateActiveOnly ∧
    (ModelLoader.manualRotationAdvance mr δ).lastMouseY = mr.lastMouseY ∧
    (ModelLoader.manualRotationAdvance mr δ).targetRotationX
      = mr.targetRotationX + mr.velocityY * mr.dampening ∧
    (ModelLoader.manualRotationAdvance mr δ).velocityY = mr.velocityY * mr.dampening := by
  simp [ModelLoader.manualRotationAdvance]

lemma manualRotationAdvance_currentX_eighth (mr : ManualRotationState) :
    (ModelLoader.manualRotationAdvance mr (1/8)).currentRotationX
      = (ModelLoader.manualRotationAdvance mr (1/8)).targetRotationX := by
  simp only [ModelLoader.manualRotationAdvance, lerp]
  norm_num

lemma applyManual_manualRotation (g : ManualRotationState) (st : ModelState) :
    (ModelLoader.applyManualRotationToModel g st).manualRotation = st.manualRotation := by
  cases hm : st.modelObject <;> simp [ModelLoader.applyManualRotationToModel, hm]

lemma applyManual_rotX (g : ManualRotationState) (st : ModelState) (obj : ModelObj)
    (hobj : st.modelObject = some obj) :
    (ModelLoader.applyManualRotationToModel g st).modelObject.map ModelObj.rotX
      = some (st.manualRotation.baseRotationX + g.currentRotationX) := by
  simp [ModelLoader.applyManualRotationToModel, hobj]

lemma modelTransitionStep_manualRotation (δ : ℚ) (st : ModelState) :
    (ModelLoader.modelTransitionStep δ st).manualRotation = st.manualRotation := by
  cases hm : st.modelObject with
  | none => simp [ModelLoader.modelTransitionStep, hm]
  | some o =>
      simp only [ModelLoader.modelTransitionStep, hm]
      split_ifs <;> simp

lemma modelTransitionStep_rotX (δ : ℚ) (st : ModelState) :
    (ModelLoader.modelTransitionStep δ st).modelObject.map ModelObj.rotX
      = st.modelObject.map ModelObj.rotX := by
  cases hm : st.modelObject with
  | none => simp [ModelLoader.modelTransitionStep, hm]
  | some o =>
      simp only [ModelLoader.modelTransitionStep, hm]
      split_ifs <;> simp

lemma onMouseMove_others (m : ModelLoaderState) (x y : ℚ) :
    (ModelLoader.onMouseMove m x y).modelStates = m.modelStates ∧
    (ModelLoader.onMouseMove m x y).activeModelId = m.activeModelId := by
  unfold ModelLoader.onMouseMove
  split <;> exact ⟨rfl, rfl⟩

lemma update_activeModelId_raw (m : ModelLoaderState) (δ pulse : ℚ) :
    (ModelLoader.update m δ pulse).activeModelId =
      (if (if m.manualRotation.enabled then ModelLoader.updateManualRotation m δ
            else m).autoRotation.enabled
          ∧ ¬ (if m.manualRotation.enabled then ModelLoader.updateManualRotation m δ
            else m).manualRotation.isDragging
        then ModelLoader.updateAutoRotation
          (if m.manualRotation.enabled then ModelLoader.updateManualRotation m δ else m) δ
        else (if m.manualRotation.enabled then ModelLoader.updateManualRotation m δ
          else m)).activeModelId := rfl

lemma dragging_after_manual (m : ModelLoaderState) (δ : ℚ)
    (hd : m.manualRotation.isDragging = true) :
    (if m.manualRotation.enabled then ModelLoader.updateManualRotation m δ
      else m).manualRotation.isDragging = true := by
  split
  · rw [(updateManualRotation_fields m δ).1,
      (manualRotationAdvance_fields m.manualRotation δ).2.1]
    exact hd
  · exact hd

lemma update_activeModelId_dragging (m : ModelLoaderState) (δ pulse : ℚ)
    (hd : m.manualRotation.isDragging = true) :
    (ModelLoader.update m δ pulse).activeModelId = m.activeModelId := by
  rw [update_activeModelId_raw, if_neg (by simp [dragging_after_manual m δ hd])]
  split
  · exact (updateManualRotation_fields m δ).2.1
  · rfl

lemma update_modelStates_map_dragging (m : ModelLoaderState) (δ pulse : ℚ) (k : Nat)
    (hd : m.manualRotation.isDragging = true) :
    ((ModelLoader.update m δ pulse).modelStates k).map
        (fun s => (s.manualRotation, s.modelObject.isSome))
      = (m.modelStates k).map (fun s => (s.manualRotation, s.modelObject.isSome)) := by
  rw [update_modelStates m δ pulse k, if_neg (by simp [dragging_after_manual m δ hd])]
  rw [Option.map_map]
  have hcomp :
      ((if m.manualRotation.enabled then ModelLoader.updateManualRotation m δ
          else m).modelStates k).map
        ((fun s : ModelState => (s.manualRotation, s.modelObject.isSome))
          ∘ ModelLoader.modelTransitionStep δ)
      = ((if m.manualRotation.enabled then ModelLoader.updateManualRotation m δ
          else m).modelStates k).map
        (fun s : ModelState => (s.manualRotation, s.modelObject.isSome)) :=
    Option.map_congr fun a _ => by
      show ((ModelLoader.modelTransitionStep δ a).manualRotation,
        (ModelLoader.modelTransitionStep δ a).modelObject.isSome) = _
      rw [modelTransitionStep_manualRotation, (modelTransitionStep_proj δ a).2.2]
  rw [hcomp]
  split
  · exact updateManualRotation_modelStates_map _ (fun g s => by
      simp only [applyManual_manualRotation, (applyManual_proj g s).2.2.2]) m δ k
  · rfl

lemma dragFrames_invariant (δ pulse : ℚ) :
    ∀ (ps : List (ℚ × ℚ)) (m : ModelLoaderState),
      m.manualRotation.enabled = true → m.manualRotation.isDragging = true →
      (ModelLoader.dragFrames m ps δ pulse).manualRotation.enabled = true ∧
      (ModelLoader.dragFrames m ps δ pulse).manualRotation.isDragging = true ∧
      (ModelLoader.dragFrames m ps δ pulse).manualRotation.rotateActiveOnly
        = m.manualRotation.rotateActiveOnly ∧
      (ModelLoader.dragFrames m ps δ pulse).manualRotation.sensitivity
        = m.manualRotation.sensitivity ∧
      (ModelLoader.dragFrames m ps δ pulse).manualRotation.dampening
        = m.manualRotation.dampening ∧
      (ModelLoader.dragFrames m ps δ pulse).manualRotation.maxSpeed
        = m.manualRotation.maxSpeed ∧
      (ModelLoader.dragFrames m ps δ pulse).activeModelId = m.activeModelId ∧
      ∀ k, ((ModelLoader.dragFrames m ps δ pulse).modelStates k).map
          (fun s => (s.manualRotation, s.modelObject.isSome))
        = (m.modelStates k).map (fun s => (s.manualRotation, s.modelObject.isSome)) := by
  intro ps
  induction ps with
  | nil =>
      intro m he hd
      exact ⟨he, hd, rfl, rfl, rfl, rfl, rfl, fun k => rfl⟩
  | cons p ps ih =>
      intro m he hd
      have hmove := onMouseMove_manualRotation m p.1 p.2 he hd
      have hmove2 := onMouseMove_others m p.1 p.2
      have he1 : (ModelLoader.onMouseMove m p.1 p.2).manualRotation.enabled = true := by
        rw [hmove]; exact he
      have hd1 : (ModelLoader.onMouseMove m p.1 p.2).manualRotation.isDragging = true := by
        rw [hmove]; exact hd
      have hupd := update_manualRotation_of_enabled (ModelLoader.onMouseMove m p.1 p.2)
        δ pulse he1
      have hmr2 := manualRotationAdvance_fields
        (ModelLoader.onMouseMove m p.1 p.2).manualRotation δ
      have hmr3 := manualRotationAdvance_more
        (ModelLoader.onMouseMove m p.1 p.2).manualRotation δ
      have he2 : (ModelLoader.update (ModelLoader.onMouseMove m p.1 p.2) δ
          pulse).manualRotation.enabled = true := by
        rw [hupd, hmr2.1]; exact he1
      have hd2 : (ModelLoader.update (ModelLoader.onMouseMove m p.1 p.2) δ
          pulse).manualRotation.isDragging = true := by
        rw [hupd, hmr2.2.1]; exact hd1
      have hao2 : (ModelLoader.update (ModelLoader.onMouseMove m p.1 p.2) δ
          pulse).manualRotation.rotateActiveOnly = m.manualRotation.rotateActiveOnly := by
        rw [hupd, hmr3.1, hmove]
      have hs2 : (ModelLoader.update (ModelLoader.onMouseMove m p.1 p.2) δ
          pulse).manualRotation.sensitivity = m.manualRotation.sensitivity := by
        rw [hupd, hmr2.2.2.1, hmove]
      have hdamp2 : (ModelLoader.update (ModelLoader.onMouseMove m p.1 p.2) δ
          pulse).manualRotation.dampening = m.manualRotation.dampening := by
        rw [hupd, hmr2.2.2.2.1, hmove]
      have hms2 : (ModelLoader.update (ModelLoader.onMouseMove m p.1 p.2) δ
          pulse).manualRotation.maxSpeed = m.manualRotation.maxSpeed := by
        rw [hupd, hmr2.2.2.2.2.1, hmove]
      have hact2 : (ModelLoader.update (ModelLoader.onMouseMove m p.1 p.2) δ
          pulse).activeModelId = m.activeModelId := by
        rw [update_activeModelId_dragging _ δ pulse hd1, hmove2.2]
      have hmap2 : ∀ k, ((ModelLoader.update (ModelLoader.onMouseMove m p.1 p.2) δ
          pulse).modelStates k).map (fun s => (s.manualRotation, s.modelObject.isSome))
          = (m.modelStates k).map (fun s => (s.manualRotation, s.modelObject.isSome)) := by
        intro k
        rw [update_modelStates_map_dragging _ δ pulse k hd1, hmove2.1]
      obtain ⟨a1, a2, a3, a4, a5, a6, a7, a8⟩ :=
        ih (ModelLoader.update (ModelLoader.onMouseMove m p.1 p.2) δ pulse) he2 hd2
      have hstep : ModelLoader.dragFrames m (p :: ps) δ pulse
          = ModelLoader.dragFrames
              (ModelLoader.update (ModelLoader.onMouseMove m p.1 p.2) δ pulse) ps δ pulse := rfl
      rw [hstep]
      refine ⟨a1, a2, ?_, ?_, ?_, ?_, ?_, ?_⟩
      · rw [a3, hao2]
      · rw [a4, hs2]
      · rw [a5, hdamp2]
      · rw [a6, hms2]
      · rw [a7, hact2]
      · intro k
        rw [a8 k, hmap2 k]

lemma dragFrames_targetRotationX (δ pulse : ℚ) :
    ∀ (ps : List (ℚ × ℚ)) (m : ModelLoaderState),
      m.manualRotation.enabled = true → m.manualRotation.isDragging = true →
      m.manualRotation.sensitivity = 1/20 → m.manualRotation.dampening = 19/20 →
      m.manualRotation.maxSpeed = 1/20 →
      exceedsClampVertB (1/20) (1/20) m.manualRotation.lastMouseY ps = true →
      (ModelLoader.dragFrames m ps δ pulse).manualRotation.targetRotationX
        = m.manualRotation.targetRotationX + ps.length * (19/400) ∧
      (ModelLoader.dragFrames m ps δ pulse).manualRotation.lastMouseY
        = lastYOf m.manualRotation.lastMouseY ps := by
  intro ps
  induction ps with
  | nil =>
      intro m he hd hs hdamp hms hch
      exact ⟨by simp [ModelLoader.dragFrames], rfl⟩
  | cons p ps ih =>
      intro m he hd hs hdamp hms hch
      rw [exceedsClampVertB, Bool.and_eq_true] at hch
      obtain ⟨h1, h2⟩ := hch
      have hge : (1 : ℚ)/20 ≤ (p.2 - m.manualRotation.lastMouseY) * (1/20) :=
        of_decide_eq_true h1
      have hmove := onMouseMove_manualRotation m p.1 p.2 he hd
      have he2 : (ModelLoader.onMouseMove m p.1 p.2).manualRotation.enabled = true := by
        rw [hmove]; exact he
      have hd2 : (ModelLoader.onMouseMove m p.1 p.2).manualRotation.isDragging = true := by
        rw [hmove]; exact hd
      have hupd := update_manualRotation_of_enabled (ModelLoader.onMouseMove m p.1 p.2)
        δ pulse he2
      have hmr2 := manualRotationAdvance_fields
        (ModelLoader.onMouseMove m p.1 p.2).manualRotation δ
      have hmr3 := manualRotationAdvance_more
        (ModelLoader.onMouseMove m p.1 p.2).manualRotation δ
      have hvy : (ModelLoader.onMouseMove m p.1 p.2).manualRotation.velocityY = 1/20 := by
        rw [hmove]
        show max (-m.manualRotation.maxSpeed)
          (min m.manualRotation.maxSpeed
            ((p.2 - m.manualRotation.lastMouseY) * m.manualRotation.sensitivity)) = 1/20
        rw [hms, hs, min_eq_left hge]
        norm_num
      have he3 : (ModelLoader.update (ModelLoader.onMouseMove m p.1 p.2) δ
          pulse).manualRotation.enabled = true := by
        rw [hupd, hmr2.1]; exact he2
      have hd3 : (ModelLoader.update (ModelLoader.onMouseMove m p.1 p.2) δ
          pulse).manualRotation.isDragging = true := by
        rw [hupd, hmr2.2.1]; exact hd2
      have hs3 : (ModelLoader.update (ModelLoader.onMouseMove m p.1 p.2) δ
          pulse).manualRotation.sensitivity = 1/20 := by
        rw [hupd, hmr2.2.2.1, hmove]; exact hs
      have hdamp3 : (ModelLoader.update (ModelLoader.onMouseMove m p.1 p.2) δ
          pulse).manualRotation.dampening = 19/20 := by
        rw [hupd, hmr2.2.2.2.1, hmove]; exact hdamp
      have hms3 : (ModelLoader.update (ModelLoader.onMouseMove m p.1 p.2) δ
          pulse).manualRotation.maxSpeed = 1/20 := by
        rw [hupd, hmr2.2.2.2.2.1, hmove]; exact hms
      have hlast3 : (ModelLoader.update (ModelLoader.onMouseMove m p.1 p.2) δ
          pulse).manualRotation.lastMouseY = p.2 := by
        rw [hupd, hmr3.2.1, hmove]
      have hch3 : exceedsClampVertB (1/20) (1/20)
          (ModelLoader.update (ModelLoader.onMouseMove m p.1 p.2) δ
            pulse).manualRotation.lastMouseY ps = true := by
        rw [hlast3]; exact h2
      have htX : (ModelLoader.update (ModelLoader.onMouseMove m p.1 p.2) δ
          pulse).manualRotation.targetRotationX
          = m.manualRotation.targetRotationX + 19/400 := by
        rw [hupd, hmr3.2.2.1, hvy]
        have hdampm : (ModelLoader.onMouseMove m p.1 p.2).manualRotation.dampening
            = 19/20 := by rw [hmove]; exact hdamp
        have htX2 : (ModelLoader.onMouseMove m p.1 p.2).manualRotation.targetRotationX
            = m.manualRotation.targetRotationX := by rw [hmove]
        rw [hdampm, htX2]
        norm_num
      obtain ⟨b1, b2⟩ := ih (ModelLoader.update (ModelLoader.onMouseMove m p.1 p.2) δ pulse)
        he3 hd3 hs3 hdamp3 hms3 hch3
      have hstep : ModelLoader.dragFrames m (p :: ps) δ pulse
          = ModelLoader.dragFrames
              (ModelLoader.update (ModelLoader.onMouseMove m p.1 p.2) δ pulse) ps δ pulse := rfl
      constructor
      · rw [hstep, b1, htX, List.length_cons]
        push_cast
        ring
      · rw [hstep, b2, hlast3]
        rfl

lemma update_object_rotX (m : ModelLoaderState) (δ pulse : ℚ) (aid : Nat)
    (st : ModelState) (obj : ModelObj)
    (he : m.manualRotation.enabled = true) (hd : m.manualRotation.isDragging = true)
    (hao : m.manualRotation.rotateActiveOnly = true)
    (hA : m.activeModelId = some aid) (hst : m.modelStates aid = some st)
    (hobj : st.modelObject = some obj) :
    ((ModelLoader.update m δ pulse).modelStates aid).map
        (fun s => s.modelObject.map ModelObj.rotX)
      = some (some (st.manualRotation.baseRotationX
          + (ModelLoader.manualRotationAdvance m.manualRotation δ).currentRotationX)) := by
  rw [update_modelStates m δ pulse aid,
    if_neg (by simp [dragging_after_manual m δ hd]), if_pos he]
  have hao2 : (ModelLoader.manualRotationAdvance m.manualRotation δ).rotateActiveOnly
      = true := by
    rw [(manualRotationAdvance_more m.manualRotation δ).1]; exact hao
  simp only [ModelLoader.updateManualRotation, hao2, if_true, hA, updateAt]
  rw [hst]
  show some ((ModelLoader.modelTransitionStep δ
      (ModelLoader.applyManualRotationToModel
        (ModelLoader.manualRotationAdvance m.manualRotation δ) st)).modelObject.map
          ModelObj.rotX) = _
  rw [modelTransitionStep_rotX, applyManual_rotX _ st obj hobj]

set_option maxRecDepth 16000 in
/-- C4 counterexample: in the embedded program's developed drag path an
honest 23-sample vertical over-clamp drag (one frame update per sample,
frame time 1/8 so the eased current rotation tracks the target exactly)
drives the active model object's tilt rotation rotX to 437/400, which
exceeds pi / 3: applyManualRotationToModel writes the tilt axis with no
clamp and the target rotation accumulates without bound, refuting the
claimed plus-or-minus-60-degree invariant. -/
theorem tiltUnbounded_counterexample :
    ((ModelLoader.dragFrames tiltDragLoader verticalMoves23 (1/8) 1).modelStates 0).map
        (fun s => s.modelObject.map ModelObj.rotX)
      = some (some (437/400)) ∧
    Real.pi / 3 < ((437 : ℝ)/400) := by
  constructor
  · have he0 : tiltDragLoader.manualRotation.enabled = true := by decide
    have hd0 : tiltDragLoader.manualRotation.isDragging = true := by decide
    have hao0 : tiltDragLoader.manualRotation.rotateActiveOnly = true := by decide
    have hs0 : tiltDragLoader.manualRotation.sensitivity = 1/20 := rfl
    have hdamp0 : tiltDragLoader.manualRotation.dampening = 19/20 := rfl
    have hms0 : tiltDragLoader.manualRotation.maxSpeed = 1/20 := rfl
    have hlast0 : tiltDragLoader.manualRotation.lastMouseY = 0 := rfl
    have htX0 : tiltDragLoader.manualRotation.targetRotationX = 0 := rfl
    have hA0 : tiltDragLoader.activeModelId = some 0 := rfl
    have hms00 : tiltDragLoader.modelStates 0 = some loadedActiveState := by decide
    have hch22 : exceedsClampVertB (1/20) (1/20)
        tiltDragLoader.manualRotation.lastMouseY verticalMoves22 = true := by
      norm_num [exceedsClampVertB, verticalMoves22, tiltDragLoader, tiltDragBase,
        ModelLoader.onMouseDown, baseLoader, mkModelLoader]
    obtain ⟨htX22, hlast22⟩ := dragFrames_targetRotationX (1/8) 1 verticalMoves22
      tiltDragLoader he0 hd0 hs0 hdamp0 hms0 hch22
    obtain ⟨e1, e2, e3, e4, e5, e6, e7, e8⟩ :=
      dragFrames_invariant (1/8) 1 verticalMoves22 tiltDragLoader he0 hd0
    have hbase : ((ModelLoader.dragFrames tiltDragLoader verticalMoves22
        (1/8) 1).modelStates 0).map (fun s => (s.manualRotation, s.modelObject.isSome))
        = some (pmZero, true) := by
      rw [e8 0, hms00]
      rfl
    rcases Option.map_eq_some'.mp hbase with ⟨st22, hst22, hpair22⟩
    have hman22 : st22.manualRotation = pmZero := congrArg Prod.fst hpair22
    have hsome22 : st22.modelObject.isSome = true := congrArg Prod.snd hpair22
    rcases Option.isSome_iff_exists.mp hsome22 with ⟨obj22, hobj22⟩
    have hmove := onMouseMove_manualRotation
      (ModelLoader.dragFrames tiltDragLoader verticalMoves22 (1/8) 1) 0 2300 e1 e2
    have hmove2 := onMouseMove_others
      (ModelLoader.dragFrames tiltDragLoader verticalMoves22 (1/8) 1) 0 2300
    have he' : (ModelLoader.onMouseMove
        (ModelLoader.dragFrames tiltDragLoader verticalMoves22 (1/8) 1) 0
          2300).manualRotation.enabled = true := by
      rw [hmove]; exact e1
    have hd' : (ModelLoader.onMouseMove
        (ModelLoader.dragFrames tiltDragLoader verticalMoves22 (1/8) 1) 0
          2300).manualRotation.isDragging = true := by
      rw [hmove]; exact e2
    have hao' : (ModelLoader.onMouseMove
        (ModelLoader.dragFrames tiltDragLoader verticalMoves22 (1/8) 1) 0
          2300).manualRotation.rotateActiveOnly = true := by
      rw [hmove]
      show (ModelLoader.dragFrames tiltDragLoader verticalMoves22
        (1/8) 1).manualRotation.rotateActiveOnly = true
      rw [e3]; exact hao0
    have hA' : (ModelLoader.onMouseMove
        (ModelLoader.dragFrames tiltDragLoader verticalMoves22 (1/8) 1) 0
          2300).activeModelId = some 0 := by
      rw [hmove2.2, e7]; exact hA0
    have hst' : (ModelLoader.onMouseMove
        (ModelLoader.dragFrames tiltDragLoader verticalMoves22 (1/8) 1) 0
          2300).modelStates 0 = some st22 := by
      rw [hmove2.1]; exact hst22
    have hD := update_object_rotX
      (ModelLoader.onMouseMove
        (ModelLoader.dragFrames tiltDragLoader verticalMoves22 (1/8) 1) 0 2300)
      (1/8) 1 0 st22 obj22 he' hd' hao' hA' hst' hobj22
    have hsplit : ModelLoader.dragFrames tiltDragLoader verticalMoves23 (1/8) 1
        = ModelLoader.update (ModelLoader.onMouseMove
            (ModelLoader.dragFrames tiltDragLoader verticalMoves22 (1/8) 1) 0 2300)
          (1/8) 1 := by
      simp [ModelLoader.dragFrames, verticalMoves23, List.foldl_append]
    rw [hsplit, hD, hman22]
    have hcur : (ModelLoader.manualRotationAdvance
        (ModelLoader.onMouseMove
          (ModelLoader.dragFrames tiltDragLoader verticalMoves22 (1/8) 1) 0
            2300).manualRotation (1/8)).currentRotationX = 437/400 := by
      rw [manualRotationAdvance_currentX_eighth,
        (manualRotationAdvance_more _ (1/8)).2.2.1]
      have hvY : (ModelLoader.onMouseMove
          (ModelLoader.dragFrames tiltDragLoader verticalMoves22 (1/8) 1) 0
            2300).manualRotation.velocityY = 1/20 := by
        rw [hmove]
        show max (-(ModelLoader.dragFrames tiltDragLoader verticalMoves22
            (1/8) 1).manualRotation.maxSpeed)
          (min (ModelLoader.dragFrames tiltDragLoader verticalMoves22
              (1/8) 1).manualRotation.maxSpeed
            ((2300 - (ModelLoader.dragFrames tiltDragLoader verticalMoves22
              (1/8) 1).manualRotation.lastMouseY)
              * (ModelLoader.dragFrames tiltDragLoader verticalMoves22
                (1/8) 1).manualRotation.sensitivity)) = 1/20
        rw [e6, hms0, e4, hs0, hlast22, hlast0]
        have hlv : lastYOf 0 verticalMoves22 = 2200 := rfl
        rw [hlv, min_eq_left (by norm_num)]
        norm_num
      have htX' : (ModelLoader.onMouseMove
          (ModelLoader.dragFrames tiltDragLoader verticalMoves22 (1/8) 1) 0
            2300).manualRotation.targetRotationX = 209/200 := by
        rw [hmove]
        show (ModelLoader.dragFrames tiltDragLoader verticalMoves22
          (1/8) 1).manualRotation.targetRotationX = 209/200
        rw [htX22, htX0]
        have hlen : ((verticalMoves22.length : ℚ)) = 22 := by
          norm_num [verticalMoves22]
        rw [hlen]
        norm_num
      have hdamp' : (ModelLoader.onMouseMove
          (ModelLoader.dragFrames tiltDragLoader verticalMoves22 (1/8) 1) 0
            2300).manualRotation.dampening = 19/20 := by
        rw [hmove]
        show (ModelLoader.dragFrames tiltDragLoader verticalMoves22
          (1/8) 1).manualRotation.dampening = 19/20
        rw [e5]; exact hdamp0
      rw [htX', hvY, hdamp']
      norm_num
    rw [hcur]
    norm_num [pmZero]
  · have h := Real.pi_lt_d2
    nlinarith [h]

/-- C4 amended: the plus-or-minus 60 degree (pi / 3) tilt clamp holds only
in the legacy MouseInteraction.rotateActiveModel path: any fold of its drag
deltas keeps the tilt axis x within the bound while the yaw axis y carries
the full unclamped scaled sum.  The developed ModelLoader drag path applies
no tilt clamp: with the constructor constants, every vertical over-clamp
sample (with one frame per sample) adds dampening x maxSpeed = 19/400 to
the tilt target rotation, which therefore grows linearly in the sample
count without bound and is written onto the model unclamped (see the C4
counterexample). -/
theorem tiltClampLegacyOnly (r : EulerRot ℝ) (ds : List (ℝ × ℝ))
    (h : |r.x| ≤ Real.pi / 3)
    (m : ModelLoaderState) (ps : List (ℚ × ℚ)) (δ pulse : ℚ)
    (he : m.manualRotation.enabled = true) (hd : m.manualRotation.isDragging = true)
    (hs : m.manualRotation.sensitivity = 1/20) (hdamp : m.manualRotation.dampening = 19/20)
    (hms : m.manualRotation.maxSpeed = 1/20)
    (hch : exceedsClampVertB (1/20) (1/20) m.manualRotation.lastMouseY ps = true) :
    (|(MouseInteraction.rotateSeq (1/100) (Real.pi/3) r ds).x| ≤ Real.pi / 3 ∧
     (MouseInteraction.rotateSeq (1/100) (Real.pi/3) r ds).y
       = r.y + (ds.map Prod.fst).sum * (1/100)) ∧
    (ModelLoader.dragFrames m ps δ pulse).manualRotation.targetRotationX
      = m.manualRotation.targetRotationX + ps.length * (19/400) :=
  ⟨rotateSeq_bounds (1/100) (Real.pi/3) (by positivity) ds r h,
   (dragFrames_targetRotationX δ pulse ps m he hd hs hdamp hms hch).1⟩

theorem tiltClampLegacyOnly_witness :
    (|({ x := 0, y := 0, z := 0 } : EulerRot ℝ).x| ≤ Real.pi / 3 ∧
     tiltDragLoader.manualRotation.enabled = true ∧
     tiltDragLoader.manualRotation.isDragging = true ∧
     tiltDragLoader.manualRotation.sensitivity = 1/20 ∧
     tiltDragLoader.manualRotation.dampening = 19/20 ∧
     tiltDragLoader.manualRotation.maxSpeed = 1/20 ∧
     exceedsClampVertB (1/20) (1/20) tiltDragLoader.manualRotation.lastMouseY
       threeVertMoves = true) ∧
    ((|(MouseInteraction.rotateSeq (1/100) (Real.pi/3)
        { x := 0, y := 0, z := 0 } [((2:ℝ), 300)]).x| ≤ Real.pi / 3 ∧
      (MouseInteraction.rotateSeq (1/100) (Real.pi/3)
        { x := 0, y := 0, z := 0 } [((2:ℝ), 300)]).y
        = ({ x := 0, y := 0, z := 0 } : EulerRot ℝ).y
          + ([((2:ℝ), 300)].map Prod.fst).sum * (1/100)) ∧
     (ModelLoader.dragFrames tiltDragLoader threeVertMoves (1/60) 1).manualRotation.targetRotationX
       = tiltDragLoader.manualRotation.targetRotationX
         + threeVertMoves.length * (19/400)) :=
  have h0 : |({ x := 0, y := 0, z := 0 } : EulerRot ℝ).x| ≤ Real.pi / 3 := by
    rw [show ({ x := 0, y := 0, z := 0 } : EulerRot ℝ).x = 0 from rfl, abs_zero]
    positivity
  have hch : exceedsClampVertB (1/20) (1/20) tiltDragLoader.manualRotation.lastMouseY
      threeVertMoves = true := by
    norm_num [exceedsClampVertB, threeVertMoves, tiltDragLoader, tiltDragBase,
      ModelLoader.onMouseDown, baseLoader, mkModelLoader]
  ⟨⟨h0, by decide, by decide, rfl, rfl, rfl, hch⟩,
    tiltClampLegacyOnly { x := 0, y := 0, z := 0 } [((2:ℝ), 300)] h0
      tiltDragLoader threeVertMoves (1/60) 1
      (by decide) (by decide) rfl rfl rfl hch⟩

end Gallery

